import Mathlib

set_option maxRecDepth 8000

/-!
Verification of the notification delivery and retry engine of the
`payment-gateway-notifications` repository, against its natural-language
specification.

The Python sources are shallowly embedded as executable Lean definitions:
pure helpers become Lean functions, the database-backed delivery ledger
becomes an explicit list of records, the stateful router and retry loops
become state-passing functions, and network transports take their outcome
(HTTP response / bot-API response) as an explicit oracle argument.
Machine integers are `Nat`/`Int`; Python `datetime` arithmetic on retry
schedules is modelled as minutes represented by `Nat`.
-/

namespace Gateway

/-! ## String helpers

`pyLower` models Python `str.lower()` restricted to ASCII letters, which is
the alphabet of the Ethereum addresses, hashes and ids the code lowercases
(`models/payment.py`, `__post_init__`). -/

/-- ASCII lowercase of one character (Python `str.lower` on `A`-`Z`). -/
def lowerChar (c : Char) : Char :=
  if 65 ≤ c.toNat ∧ c.toNat ≤ 90 then Char.ofNat (c.toNat + 32) else c

/-- Python `s.lower()` on ASCII strings. -/
def pyLower (s : String) : String :=
  String.mk (s.data.map lowerChar)

/-- Two character lists that agree up to ASCII letter case. -/
def caseEqChars : List Char → List Char → Bool
  | [], [] => true
  | a :: as, b :: bs => lowerChar a == lowerChar b && caseEqChars as bs
  | _, _ => false

/-- Two strings that agree up to ASCII letter case. -/
def caseEq (s t : String) : Bool :=
  caseEqChars s.data t.data

/-- Decimal digits, most significant first; structural recursion on a
fuel bound (`fuel > n` suffices, since `n / 10 < n` for `n ≥ 10`). -/
def natDigitsAux : Nat → Nat → List Char
  | 0, _ => []
  | fuel + 1, n =>
    if n < 10 then [Nat.digitChar n]
    else natDigitsAux fuel (n / 10) ++ [Nat.digitChar (n % 10)]

/-- Decimal digits of a natural number, most significant first. -/
def natDigits (n : Nat) : List Char :=
  natDigitsAux (n + 1) n

/-- Decimal rendering of a natural number (Python `str` on nonnegative int). -/
def natRepr (n : Nat) : String :=
  String.mk (natDigits n)

/-! ## Fixed-point formatting

Models Python `f"{Decimal(a) / Decimal(10 ** d):.p f}"`: the exact rational
`a / 10 ^ d` rounded to `p` decimal places with round-half-to-even (the
`decimal` module's default rounding), then rendered with exactly `p` digits
after the decimal point. -/

/-- Round `a / b` to the nearest integer, ties to even (`b > 0`). -/
def halfEvenRound (a : Int) (b : Nat) : Int :=
  let bi : Int := (b : Int)
  let q := Int.fdiv a bi
  let r := a - q * bi
  if 2 * r < bi then q
  else if bi < 2 * r then q + 1
  else if q % 2 = 0 then q else q + 1

/-- Zero-pad the decimal rendering of `n` on the left to `p` characters. -/
def padRepr (n : Nat) (p : Nat) : String :=
  let s := natDigits n
  String.mk (List.replicate (p - s.length) '0' ++ s)

/-- Format the rational `a / 10 ^ d` with exactly `p` decimal places,
rounding half to even. -/
def formatFixed (a : Int) (d : Nat) (p : Nat) : String :=
  let n := halfEvenRound (a * (10 : Int) ^ p) (10 ^ d)
  let m := n.natAbs
  (if n < 0 then "-" else "") ++ natRepr (m / 10 ^ p) ++ "." ++ padRepr (m % 10 ^ p) p

/-! ## Payment events (`models/payment.py`) -/

/-- `TOKEN_DECIMALS` table from `models/payment.py`. -/
def TOKEN_DECIMALS : List (String × Nat) :=
  [("0xa0b86991c6218b36c1d19d4a2e9eb0ce3606eb48", 6),
   ("0x1c7d4b196cb0c7b01d743fbc6116a902379c7238", 6),
   ("0xdac17f958d2ee523a2206206994597c13d831ec7", 6),
   ("0x6b175474e89094c44da98b954eedeac495271d0f", 18)]

/-- `TOKEN_SYMBOLS` table from `models/payment.py`. -/
def TOKEN_SYMBOLS : List (String × String) :=
  [("0xa0b86991c6218b36c1d19d4a2e9eb0ce3606eb48", "USDC"),
   ("0x1c7d4b196cb0c7b01d743fbc6116a902379c7238", "USDC"),
   ("0xdac17f958d2ee523a2206206994597c13d831ec7", "USDT"),
   ("0x6b175474e89094c44da98b954eedeac495271d0f", "DAI")]

/-- Python `dict.get(k, default)` on an association list. -/
def dictGet {β : Type} (l : List (String × β)) (k : String) (dflt : β) : β :=
  match l.find? (fun kv => kv.1 == k) with
  | some kv => kv.2
  | none => dflt

/-- `PaymentEvent` from `models/payment.py`.  `amount` is stored in the
source as a decimal string and parsed with `int()` at the single use site;
it is embedded as `Int` directly.  `block_timestamp` and `processed_at`
are opaque here and carried as their ISO rendering. -/
structure PaymentEvent where
  payment_intent_id : String
  merchant_id : String
  customer_address : String
  token_address : String
  amount : Int
  transaction_hash : String
  block_number : Int
  block_timestamp : String
  status : String := "completed"
deriving Repr, DecidableEq

/-- `PaymentEvent.__post_init__`: lowercase the merchant id, customer
address, token address and transaction hash. -/
def mkPaymentEvent (e : PaymentEvent) : PaymentEvent :=
  { e with
    merchant_id := pyLower e.merchant_id
    customer_address := pyLower e.customer_address
    token_address := pyLower e.token_address
    transaction_hash := pyLower e.transaction_hash }

namespace PaymentEvent

/-- `PaymentEvent.get_token_symbol`. -/
def get_token_symbol (e : PaymentEvent) : String :=
  dictGet TOKEN_SYMBOLS e.token_address "TOKEN"

/-- `PaymentEvent.get_token_decimals`. -/
def get_token_decimals (e : PaymentEvent) : Nat :=
  dictGet TOKEN_DECIMALS e.token_address 18

/-- `PaymentEvent.get_formatted_amount`. -/
def get_formatted_amount (e : PaymentEvent) : String :=
  let decimals := e.get_token_decimals
  let formatted :=
    if decimals ≤ 6 then formatFixed e.amount decimals 2
    else formatFixed e.amount decimals 4
  formatted ++ " " ++ e.get_token_symbol

/-- `PaymentEvent.get_event_id`. -/
def get_event_id (e : PaymentEvent) : String :=
  "evt_" ++ e.transaction_hash ++ "_" ++ e.payment_intent_id

/-- The deduplication key used by the ledger: (event id, merchant id). -/
def dedupKey (e : PaymentEvent) : String × String :=
  (e.get_event_id, e.merchant_id)

end PaymentEvent

/-! ## SHA-256 and HMAC (Python `hashlib.sha256`, `hmac.new`)

A direct executable embedding of SHA-256 (FIPS 180-4) and HMAC (RFC 2104,
block size 64) over byte lists, with 32-bit words represented as `Nat`
reduced by `% 2 ^ 32`. -/

/-- `2 ^ 32`, the word modulus. -/
def mask32 : Nat := 4294967296

/-- 32-bit modular addition. -/
def add32 (a b : Nat) : Nat := (a + b) % mask32

/-- Right rotation of a 32-bit word. -/
def rotr32 (n x : Nat) : Nat := ((x >>> n) ||| (x <<< (32 - n))) % mask32

/-- Bitwise complement of a 32-bit word. -/
def not32 (x : Nat) : Nat := x ^^^ 4294967295

/-- SHA-256 `Ch` function. -/
def shaCh (x y z : Nat) : Nat := (x &&& y) ^^^ (not32 x &&& z)

/-- SHA-256 `Maj` function. -/
def shaMaj (x y z : Nat) : Nat := (x &&& y) ^^^ (x &&& z) ^^^ (y &&& z)

/-- SHA-256 `Σ₀`. -/
def bigSigma0 (x : Nat) : Nat := rotr32 2 x ^^^ rotr32 13 x ^^^ rotr32 22 x

/-- SHA-256 `Σ₁`. -/
def bigSigma1 (x : Nat) : Nat := rotr32 6 x ^^^ rotr32 11 x ^^^ rotr32 25 x

/-- SHA-256 `σ₀`. -/
def smallSigma0 (x : Nat) : Nat := rotr32 7 x ^^^ rotr32 18 x ^^^ (x >>> 3)

/-- SHA-256 `σ₁`. -/
def smallSigma1 (x : Nat) : Nat := rotr32 17 x ^^^ rotr32 19 x ^^^ (x >>> 10)

/-- SHA-256 round constants (FIPS 180-4 §4.2.2), rounds 0–7. -/
def shaK0 : List Nat :=
  [0x428a2f98, 0x71374491, 0xb5c0fbcf, 0xe9b5dba5,
   0x3956c25b, 0x59f111f1, 0x923f82a4, 0xab1c5ed5]

/-- Round constants 8–15. -/
def shaK1 : List Nat :=
  [0xd807aa98, 0x12835b01, 0x243185be, 0x550c7dc3,
   0x72be5d74, 0x80deb1fe, 0x9bdc06a7, 0xc19bf174]

/-- Round constants 16–23. -/
def shaK2 : List Nat :=
  [0xe49b69c1, 0xefbe4786, 0x0fc19dc6, 0x240ca1cc,
   0x2de92c6f, 0x4a7484aa, 0x5cb0a9dc, 0x76f988da]

/-- Round constants 24–31. -/
def shaK3 : List Nat :=
  [0x983e5152, 0xa831c66d, 0xb00327c8, 0xbf597fc7,
   0xc6e00bf3, 0xd5a79147, 0x06ca6351, 0x14292967]

/-- Round constants 32–39. -/
def shaK4 : List Nat :=
  [0x27b70a85, 0x2e1b2138, 0x4d2c6dfc, 0x53380d13,
   0x650a7354, 0x766a0abb, 0x81c2c92e, 0x92722c85]

/-- Round constants 40–47. -/
def shaK5 : List Nat :=
  [0xa2bfe8a1, 0xa81a664b, 0xc24b8b70, 0xc76c51a3,
   0xd192e819, 0xd6990624, 0xf40e3585, 0x106aa070]

/-- Round constants 48–55. -/
def shaK6 : List Nat :=
  [0x19a4c116, 0x1e376c08, 0x2748774c, 0x34b0bcb5,
   0x391c0cb3, 0x4ed8aa4a, 0x5b9cca4f, 0x682e6ff3]

/-- Round constants 56–63. -/
def shaK7 : List Nat :=
  [0x748f82ee, 0x78a5636f, 0x84c87814, 0x8cc70208,
   0x90befffa, 0xa4506ceb, 0xbef9a3f7, 0xc67178f2]

/-- The 64 SHA-256 round constants. -/
def shaK : List Nat :=
  shaK0 ++ shaK1 ++ shaK2 ++ shaK3 ++ shaK4 ++ shaK5 ++ shaK6 ++ shaK7

/-- The eight 32-bit chaining values of a SHA-256 computation. -/
structure Hash8 where
  h0 : Nat
  h1 : Nat
  h2 : Nat
  h3 : Nat
  h4 : Nat
  h5 : Nat
  h6 : Nat
  h7 : Nat
deriving Repr, DecidableEq

/-- SHA-256 initial hash value. -/
def initHash : Hash8 :=
  ⟨0x6a09e667, 0xbb67ae85, 0x3c6ef372, 0xa54ff53a,
   0x510e527f, 0x9b05688c, 0x1f83d9ab, 0x5be0cd19⟩

/-- Big-endian byte rendering of `n` on `k` bytes. -/
def beBytes (k : Nat) (n : Nat) : List Nat :=
  (List.range k).map (fun i => (n >>> (8 * (k - 1 - i))) &&& 255)

/-- SHA-256 message padding: append `0x80`, zeros, and the 64-bit
big-endian bit length, reaching a multiple of 64 bytes. -/
def shaPad (msg : List Nat) : List Nat :=
  let len := msg.length
  let zeros := (119 - len % 64) % 64
  msg ++ [128] ++ List.replicate zeros 0 ++ beBytes 8 (len * 8)

/-- Split a byte list into 64-byte blocks. -/
def chunks64 (l : List Nat) : List (List Nat) :=
  if l.isEmpty then []
  else l.take 64 :: chunks64 (l.drop 64)
termination_by l.length
decreasing_by
  rename_i h
  have hne : l ≠ [] := by
    intro hl
    subst hl
    simp at h
  have hp : 0 < l.length := List.length_pos.mpr hne
  simp [List.length_drop]
  omega

/-- The sixteen big-endian 32-bit words of one 64-byte block. -/
def blockWords (block : List Nat) : List Nat :=
  (List.range 16).map (fun i =>
    block.getD (4 * i) 0 <<< 24 ||| block.getD (4 * i + 1) 0 <<< 16 |||
    block.getD (4 * i + 2) 0 <<< 8 ||| block.getD (4 * i + 3) 0)

/-- Extend sixteen message words to the 64-entry message schedule. -/
def extendSchedule (w : Array Nat) : Array Nat :=
  (List.range 48).foldl
    (fun w j =>
      let i := j + 16
      w.push (((smallSigma1 (w.getD (i - 2) 0) + w.getD (i - 7) 0) +
        (smallSigma0 (w.getD (i - 15) 0) + w.getD (i - 16) 0)) % mask32))
    w

/-- One SHA-256 compression round. -/
def shaRound (w : Array Nat) (st : Hash8) (t : Nat) : Hash8 :=
  let t1 := (st.h7 + bigSigma1 st.h4 + shaCh st.h4 st.h5 st.h6 +
    shaK.getD t 0 + w.getD t 0) % mask32
  let t2 := (bigSigma0 st.h0 + shaMaj st.h0 st.h1 st.h2) % mask32
  ⟨(t1 + t2) % mask32, st.h0, st.h1, st.h2, (st.h3 + t1) % mask32,
   st.h4, st.h5, st.h6⟩

/-- SHA-256 compression of one 64-byte block into the chaining value. -/
def shaCompress (H : Hash8) (block : List Nat) : Hash8 :=
  let w := extendSchedule (List.toArray (blockWords block))
  let s := (List.range 64).foldl (shaRound w) H
  ⟨add32 H.h0 s.h0, add32 H.h1 s.h1, add32 H.h2 s.h2, add32 H.h3 s.h3,
   add32 H.h4 s.h4, add32 H.h5 s.h5, add32 H.h6 s.h6, add32 H.h7 s.h7⟩

/-- SHA-256 of a byte list, as the eight chaining words. -/
def sha256Hash (msg : List Nat) : Hash8 :=
  (chunks64 (shaPad msg)).foldl shaCompress initHash

/-- Pack the eight (reduced) hash words into one 256-bit natural. -/
def hashNat (H : Hash8) : Nat :=
  (((((((H.h0 % mask32) * mask32 + H.h1 % mask32) * mask32 + H.h2 % mask32) *
    mask32 + H.h3 % mask32) * mask32 + H.h4 % mask32) * mask32 + H.h5 % mask32) *
    mask32 + H.h6 % mask32) * mask32 + H.h7 % mask32

/-- SHA-256 digest as 32 bytes. -/
def sha256Bytes (msg : List Nat) : List Nat :=
  beBytes 32 (hashNat (sha256Hash msg))

/-- UTF-8 encoding of one character (Python `str.encode('utf-8')`). -/
def utf8EncodeChar (c : Char) : List Nat :=
  let n := c.toNat
  if n < 128 then [n]
  else if n < 2048 then [192 ||| (n >>> 6), 128 ||| (n &&& 63)]
  else if n < 65536 then
    [224 ||| (n >>> 12), 128 ||| ((n >>> 6) &&& 63), 128 ||| (n &&& 63)]
  else
    [240 ||| (n >>> 18), 128 ||| ((n >>> 12) &&& 63),
     128 ||| ((n >>> 6) &&& 63), 128 ||| (n &&& 63)]

/-- UTF-8 encoding of a string. -/
def utf8Encode (s : String) : List Nat :=
  s.data.flatMap utf8EncodeChar

/-- HMAC-SHA256 over byte lists (block size 64). -/
def hmacSha256 (key msg : List Nat) : Hash8 :=
  let k0 := if key.length > 64 then sha256Bytes key else key
  let k1 := k0 ++ List.replicate (64 - k0.length) 0
  let ipadKey := k1.map (fun b => b ^^^ 54)
  let opadKey := k1.map (fun b => b ^^^ 92)
  sha256Hash (opadKey ++ beBytes 32 (hashNat (sha256Hash (ipadKey ++ msg))))

/-- The HMAC-SHA256 digest of string key and message as a 256-bit natural. -/
def hmacNat (key msg : String) : Nat :=
  hashNat (hmacSha256 (utf8Encode key) (utf8Encode msg))

/-- Lowercase hexadecimal rendering of a 256-bit natural on 64 digits;
this is exactly Python's `.hexdigest()` of the corresponding digest. -/
def natHex64 (n : Nat) : String :=
  String.mk ((List.range 64).map (fun i => Nat.digitChar ((n >>> (4 * (63 - i))) &&& 15)))

/-- `hmac.new(secret.encode(), msg.encode(), hashlib.sha256).hexdigest()`. -/
def hmacSha256Hex (key msg : String) : String :=
  natHex64 (hmacNat key msg)

/-! ## Compact JSON serialization (Python `json.dumps`)

The webhook payload dictionary is two levels deep: scalar fields plus one
nested `data` dictionary of scalars.  The embedding mirrors that shape.
`json.dumps(..., separators=(',', ':'))` is modelled by `dumpTop`;
`json.dumps(..., separators=(',', ':'), sort_keys=True)` by
`dumpTopSorted`. -/

/-- A scalar JSON value appearing in the webhook payload. -/
inductive JVal where
  | str (s : String)
  | num (n : Int)
  | null
deriving Repr, DecidableEq

/-- Python `str(n)` / `json` rendering of an integer. -/
def intRepr (n : Int) : String :=
  (if n < 0 then "-" else "") ++ natRepr n.natAbs

/-- Four lowercase hex digits (for `\uXXXX` escapes). -/
def hex4 (n : Nat) : String :=
  String.mk [Nat.digitChar (n / 4096 % 16), Nat.digitChar (n / 256 % 16),
             Nat.digitChar (n / 16 % 16), Nat.digitChar (n % 16)]

/-- `json.dumps` escaping of one character (`ensure_ascii=True` default):
shorthand escapes, `\u00XX` for other controls, `\uXXXX` (with surrogate
pairs) for non-ASCII. -/
def jsonEscapeChar (c : Char) : String :=
  let n := c.toNat
  if c = '"' then "\\\""
  else if c = '\\' then "\\\\"
  else if n = 8 then "\\b"
  else if n = 9 then "\\t"
  else if n = 10 then "\\n"
  else if n = 12 then "\\f"
  else if n = 13 then "\\r"
  else if 32 ≤ n ∧ n ≤ 126 then String.singleton c
  else if n ≤ 65535 then "\\u" ++ hex4 n
  else
    "\\u" ++ hex4 (55296 + (n - 65536) / 1024) ++ "\\u" ++ hex4 (56320 + (n - 65536) % 1024)

/-- JSON string literal. -/
def jsonStr (s : String) : String :=
  "\"" ++ String.join (s.data.map jsonEscapeChar) ++ "\""

/-- Render a scalar JSON value. -/
def dumpJVal : JVal → String
  | .str s => jsonStr s
  | .num n => intRepr n
  | .null => "null"

/-- Render the pairs of a flat object, compact separators, given order. -/
def dumpPairs (kvs : List (String × JVal)) : String :=
  String.intercalate "," (kvs.map (fun kv => jsonStr kv.1 ++ ":" ++ dumpJVal kv.2))

/-- Render a flat object. -/
def dumpObj (kvs : List (String × JVal)) : String :=
  "\x7b" ++ dumpPairs kvs ++ "\x7d"

/-- Insert into a key-sorted association list (Python string order is by
code point, which is the order of Lean's `String` `≤` on these keys). -/
def insertSorted {β : Type} (kv : String × β) : List (String × β) → List (String × β)
  | [] => [kv]
  | x :: xs => if kv.1 ≤ x.1 then kv :: x :: xs else x :: insertSorted kv xs

/-- Sort an association list by key (`sort_keys=True`). -/
def sortPairs {β : Type} (kvs : List (String × β)) : List (String × β) :=
  kvs.foldr insertSorted []

/-- A top-level value of the payload dictionary. -/
inductive TVal where
  | scalar (v : JVal)
  | dict (kvs : List (String × JVal))
deriving Repr, DecidableEq

/-- Render a top-level value, insertion order (`to_json`). -/
def dumpTVal : TVal → String
  | .scalar v => dumpJVal v
  | .dict kvs => dumpObj kvs

/-- Render a top-level value with nested keys sorted (`sort_keys=True`). -/
def dumpTValSorted : TVal → String
  | .scalar v => dumpJVal v
  | .dict kvs => dumpObj (sortPairs kvs)

/-- `json.dumps(d, separators=(',', ':'))`: compact, insertion order. -/
def dumpTop (pairs : List (String × TVal)) : String :=
  "\x7b" ++
    String.intercalate ","
      (pairs.map (fun kv => jsonStr kv.1 ++ ":" ++ dumpTVal kv.2)) ++ "\x7d"

/-- `json.dumps(d, separators=(',', ':'), sort_keys=True)`. -/
def dumpTopSorted (pairs : List (String × TVal)) : String :=
  "\x7b" ++
    String.intercalate ","
      ((sortPairs pairs).map (fun kv => jsonStr kv.1 ++ ":" ++ dumpTValSorted kv.2)) ++
    "\x7d"

/-! ## Webhook payloads (`models/payment.py`, `WebhookPayload`) -/

/-- `WebhookPayload`.  `timestamp` is carried as its `isoformat()`
rendering. -/
structure WebhookPayload where
  event_id : String
  event_type : String
  timestamp : String
  data : List (String × JVal)
  signature : Option String := none
deriving Repr, DecidableEq

namespace WebhookPayload

/-- `WebhookPayload.from_payment_event`; `tsIso` is the
`datetime.utcnow().isoformat()` value, an input of the model. -/
def from_payment_event (ev : PaymentEvent) (event_type : String)
    (tsIso : String) : WebhookPayload :=
  { event_id := ev.get_event_id
    event_type := event_type
    timestamp := tsIso
    data :=
      [("payment_intent_id", .str ev.payment_intent_id),
       ("merchant_id", .str ev.merchant_id),
       ("customer_address", .str ev.customer_address),
       ("token_address", .str ev.token_address),
       ("amount", .str (intRepr ev.amount)),
       ("formatted_amount", .str ev.get_formatted_amount),
       ("transaction_hash", .str ev.transaction_hash),
       ("block_number", .num ev.block_number),
       ("block_timestamp", .str ev.block_timestamp),
       ("status", .str ev.status)] }

/-- `WebhookPayload.to_dict` (note the `+ 'Z'` on the timestamp). -/
def to_dict (p : WebhookPayload) : List (String × TVal) :=
  [("event_id", .scalar (.str p.event_id)),
   ("event_type", .scalar (.str p.event_type)),
   ("timestamp", .scalar (.str (p.timestamp ++ "Z"))),
   ("data", .dict p.data),
   ("signature", .scalar (match p.signature with
     | some s => .str s
     | none => .null))]

/-- `WebhookPayload.to_json`. -/
def to_json (p : WebhookPayload) : String :=
  dumpTop p.to_dict

/-- The canonical serialization computed inside `WebhookPayload.sign`:
the payload dictionary without its `signature` entry, compact separators,
all keys sorted. -/
def canonicalJson (p : WebhookPayload) : String :=
  dumpTopSorted (p.to_dict.filter (fun kv => kv.1 != "signature"))

/-- The signature value computed by `WebhookPayload.sign`. -/
def sign (p : WebhookPayload) (secret : String) : String :=
  hmacSha256Hex secret p.canonicalJson

/-- `WebhookPayload.sign`'s effect on the payload
(`self.signature = signature`). -/
def signPayload (p : WebhookPayload) (secret : String) : WebhookPayload :=
  { p with signature := some (p.sign secret) }

/-- `WebhookPayload.verify_signature` (`hmac.compare_digest` is equality
of the two digest strings). -/
def verify_signature (payload_json signature secret : String) : Bool :=
  hmacSha256Hex secret payload_json == signature

end WebhookPayload

/-! ## Merchants (`models/merchant.py`) -/

/-- `NotificationType`.  The source dispatches on the strings `"webhook"`
and `"telegram"`; the enum is closed, so the router's unreachable
unknown-kind branch has no model counterpart. -/
inductive NotificationType where
  | webhook
  | telegram
deriving Repr, DecidableEq

/-- `Merchant` (directory row).  Optional fields are `None` when the
database column is NULL. -/
structure Merchant where
  id : String
  notification_type : NotificationType
  name : Option String := none
  webhook_url : Option String := none
  webhook_secret : Option String := none
  telegram_chat_id : Option String := none
  is_active : Bool := true
deriving Repr, DecidableEq

/-- `Merchant.is_webhook`. -/
def Merchant.is_webhook (m : Merchant) : Bool :=
  m.notification_type == .webhook

/-- `Merchant.is_telegram`. -/
def Merchant.is_telegram (m : Merchant) : Bool :=
  m.notification_type == .telegram

/-- The merchant directory; `Database.get_merchant` is lookup by id. -/
def get_merchant (dir : List Merchant) (merchant_id : String) : Option Merchant :=
  dir.find? (fun m => m.id == merchant_id)

/-! ## The delivery ledger (`database/db.py`)

One row of `webhook_deliveries` per (event id, merchant id) pair.  Times
(`next_retry_at`, `delivered_at`, `created_at`) are minutes represented as
`Nat`, matching the minute-granularity retry arithmetic of the services. -/

/-- A `webhook_deliveries` row. -/
structure DeliveryRecord where
  merchant_id : String
  event_type : String
  event_id : String
  delivery_method : String
  payload : String
  success : Bool
  response_code : Option Int
  response_body : Option String
  retry_count : Nat
  next_retry_at : Option Nat
  delivered_at : Nat
  created_at : Nat
deriving Repr, DecidableEq

/-- The ledger: the rows of `webhook_deliveries`. -/
def Ledger := List DeliveryRecord
deriving instance Repr, DecidableEq for Ledger

/-- `Database.log_delivery` (PostgreSQL path): insert, or on key conflict
update `success`, `response_code`, `response_body`, `retry_count`,
`next_retry_at` and `delivered_at` of the existing row. -/
def log_delivery (led : Ledger) (r : DeliveryRecord) : Ledger :=
  let led : List DeliveryRecord := led
  if led.any (fun o => o.event_id == r.event_id && o.merchant_id == r.merchant_id) then
    led.map (fun o =>
      if o.event_id == r.event_id && o.merchant_id == r.merchant_id then
        { o with
          success := r.success
          response_code := r.response_code
          response_body := r.response_body
          retry_count := r.retry_count
          next_retry_at := r.next_retry_at
          delivered_at := r.delivered_at }
      else o)
  else led ++ [r]

/-- `Database.check_event_processed`: a `success = TRUE` row exists for
the (event id, merchant id) pair. -/
def check_event_processed (led : Ledger) (event_id merchant_id : String) : Bool :=
  (led : List DeliveryRecord).any
    (fun r => r.event_id == event_id && r.merchant_id == merchant_id && r.success)

/-- The `WHERE` clause of `Database.get_pending_retries`: unsuccessful
with an elapsed retry time. -/
def isPendingRetry (now : Nat) (r : DeliveryRecord) : Bool :=
  !r.success &&
    (match r.next_retry_at with
     | some t => t ≤ now
     | none => false)

/-! ## Webhook transport (`services/webhook_service.py`) -/

/-- The outcome of one outbound HTTP POST, an input of the model.
`netError` covers `aiohttp.ClientError` and the generic exception handler
(both produce `(False, None, str(e))`). -/
inductive HttpOutcome where
  | resp (status : Int) (body : String)
  | netError (e : String)
  | timeout
deriving Repr, DecidableEq

/-- `WebhookService._deliver`: success, response code, response body. -/
def deliver (sessionInit : Bool) (o : HttpOutcome) :
    Bool × Option Int × Option String :=
  if !sessionInit then (false, none, some "Session not initialized")
  else
    match o with
    | .resp status body =>
      if 200 ≤ status ∧ status < 300 then (true, some status, some body)
      else (false, some status, some body)
    | .netError e => (false, none, some e)
    | .timeout => (false, none, some "Request timeout")

/-- `WebhookService.send_notification`.  Returns the (success, error)
pair, the updated ledger, and the number of transport calls performed.
`now` is `datetime.utcnow()` in minutes, `tsIso` its `isoformat()`. -/
def webhookSend (retry_delays : List Nat) (m : Merchant) (ev : PaymentEvent)
    (event_type : String) (now : Nat) (tsIso : String) (o : HttpOutcome)
    (led : Ledger) : (Bool × Option String) × Ledger × Nat :=
  if !m.is_webhook then
    ((false, some "Merchant is not configured for webhook notifications"), led, 0)
  else
    match m.webhook_url, m.webhook_secret with
    | some _, some secret =>
      let payload := (WebhookPayload.from_payment_event ev event_type tsIso).signPayload secret
      let res := deliver true o
      let success := res.1
      let next_retry :=
        if !success && decide (0 < retry_delays.length) then
          some (now + retry_delays.headD 0)
        else none
      let led' := log_delivery led
        { merchant_id := m.id
          event_type := event_type
          event_id := payload.event_id
          delivery_method := "webhook"
          payload := payload.to_json
          success := success
          response_code := res.2.1
          response_body := res.2.2
          retry_count := 0
          next_retry_at := next_retry
          delivered_at := now
          created_at := now }
      ((success, if success then none else res.2.2), led', 1)
    | _, _ => ((false, some "Webhook URL or secret not configured"), led, 0)

/-! ## Telegram transport (`services/telegram_service.py`) -/

/-- The bot-API response to one `sendMessage` call, an input of the model.
`ok` is the API success flag; `error_code` and `description` are the
fields the service reads from a failure response; `rendered` stands for
Python `str(response)`, the opaque rendering stored as the response
body. -/
structure TgResult where
  ok : Bool
  error_code : Option Int := none
  description : Option String := none
  rendered : String := ""
deriving Repr, DecidableEq

/-- `PaymentEvent.short_customer_address` (Python slicing). -/
def short_customer_address (e : PaymentEvent) : String :=
  String.mk (e.customer_address.data.take 6) ++ "..." ++
    String.mk (e.customer_address.data.drop (e.customer_address.data.length - 4))

/-- `PaymentEvent.short_payment_id`. -/
def short_payment_id (e : PaymentEvent) : String :=
  if 20 < e.payment_intent_id.data.length then
    String.mk (e.payment_intent_id.data.take 10) ++ "..." ++
      String.mk (e.payment_intent_id.data.drop (e.payment_intent_id.data.length - 6))
  else e.payment_intent_id

/-- `TelegramMessage.format`.  The `strftime('%Y-%m-%d %H:%M:%S')`
rendering of the opaque block timestamp is carried as the timestamp
string itself. -/
def telegramFormat (etherscan_url : String) (e : PaymentEvent) : String :=
  let tx_link := etherscan_url ++ "/tx/" ++ e.transaction_hash
  "🎉 *Payment Received!*\n\n💰 *Amount:* " ++ e.get_formatted_amount ++
    "\n👤 *Customer:* `" ++ short_customer_address e ++
    "`\n📝 *Payment ID:* `" ++ short_payment_id e ++
    "`\n\n🔗 [View Transaction](" ++ tx_link ++
    ")\n\n⏰ *Time:* " ++ e.block_timestamp ++ " UTC\n📦 *Block:* #" ++
    intRepr e.block_number ++ "\n\n---\n_Powered by PaymentGateway_"

/-- `TelegramService.send_notification`. -/
def telegramSend (etherscan_url : String) (m : Merchant) (ev : PaymentEvent)
    (event_type : String) (now : Nat) (o : TgResult) (led : Ledger) :
    (Bool × Option String) × Ledger × Nat :=
  if !m.is_telegram then
    ((false, some "Merchant is not configured for Telegram notifications"), led, 0)
  else
    match m.telegram_chat_id with
    | none => ((false, some "Telegram chat ID not configured"), led, 0)
    | some _ =>
      let message_text := telegramFormat etherscan_url ev
      let success := o.ok
      let next_retry := if !success then some (now + 1) else none
      let led' := log_delivery led
        { merchant_id := m.id
          event_type := event_type
          event_id := ev.get_event_id
          delivery_method := "telegram"
          payload := message_text
          success := success
          response_code := if success then some 200 else o.error_code
          response_body := some o.rendered
          retry_count := 0
          next_retry_at := next_retry
          delivered_at := now
          created_at := now }
      ((success, if success then none
        else some (o.description.getD "Unknown error")), led', 1)

/-! ## Router (`services/notification_router.py`) -/

/-- The router's process-local statistics counters. -/
structure RouterStats where
  total_notifications : Nat := 0
  webhook_sent : Nat := 0
  telegram_sent : Nat := 0
  webhook_failed : Nat := 0
  telegram_failed : Nat := 0
  merchant_not_found : Nat := 0
  already_processed : Nat := 0
deriving Repr, DecidableEq

/-- Result of one `NotificationRouter.route_notification` call:
the returned pair, the ledger afterwards, the number of transport calls
performed, and the statistics afterwards. -/
structure RouteResult where
  delivered : Bool
  error : Option String
  ledger : Ledger
  transportCalls : Nat
  stats : RouterStats
deriving Repr, DecidableEq

/-- `NotificationRouter.route_notification`.  The transport outcomes
(`httpO` for a webhook delivery, `tgO` for a Telegram delivery) are oracle
inputs standing for the network. -/
def route_notification (dir : List Merchant) (retry_delays : List Nat)
    (etherscan_url : String) (led : Ledger) (st : RouterStats)
    (ev : PaymentEvent) (event_type : String) (now : Nat) (tsIso : String)
    (httpO : HttpOutcome) (tgO : TgResult) : RouteResult :=
  let st := { st with total_notifications := st.total_notifications + 1 }
  let event_id := ev.get_event_id
  let merchant_id := ev.merchant_id
  if check_event_processed led event_id merchant_id then
    { delivered := true, error := none, ledger := led, transportCalls := 0,
      stats := { st with already_processed := st.already_processed + 1 } }
  else
    match get_merchant dir merchant_id with
    | none =>
      { delivered := false,
        error := some ("Merchant " ++ merchant_id ++ " not registered"),
        ledger := led, transportCalls := 0,
        stats := { st with merchant_not_found := st.merchant_not_found + 1 } }
    | some m =>
      if !m.is_active then
        { delivered := false, error := some "Merchant is inactive",
          ledger := led, transportCalls := 0, stats := st }
      else
        match m.notification_type with
        | .webhook =>
          let r := webhookSend retry_delays m ev event_type now tsIso httpO led
          { delivered := r.1.1, error := r.1.2, ledger := r.2.1,
            transportCalls := r.2.2,
            stats :=
              if r.1.1 then { st with webhook_sent := st.webhook_sent + 1 }
              else { st with webhook_failed := st.webhook_failed + 1 } }
        | .telegram =>
          let r := telegramSend etherscan_url m ev event_type now tgO led
          { delivered := r.1.1, error := r.1.2, ledger := r.2.1,
            transportCalls := r.2.2,
            stats :=
              if r.1.1 then { st with telegram_sent := st.telegram_sent + 1 }
              else { st with telegram_failed := st.telegram_failed + 1 } }

/-! ## Retry schedulers

One `_process_retries` sweep per transport.  Each pending row is retried
independently (rows are addressed by their unique id, and the
(event id, merchant id) key is unique in the table), so a sweep is a map
over the rows; rows that are not pending, not of this transport, or whose
merchant join finds no row (`JOIN merchants`) are untouched.  The per-row
HTTP / bot outcomes are an oracle indexed by the row key. -/

/-- `WebhookService._retry_delivery` applied to row `r` (including the
pending/method filter of `_process_retries`): the updated row and the
number of transport calls.  The payload re-signing and re-delivery
content does not feed back into the stored row fields, so it is not
re-modelled here; the delivery outcome is the oracle's. -/
def webhookRetryStep (retry_delays : List Nat) (dir : List Merchant)
    (now : Nat) (oracle : String × String → HttpOutcome)
    (r : DeliveryRecord) : DeliveryRecord × Nat :=
  if isPendingRetry now r && r.delivery_method == "webhook" then
    match get_merchant dir r.merchant_id with
    | none => (r, 0)
    | some m =>
      match m.webhook_url, m.webhook_secret with
      | some _, some _ =>
        if r.payload == "" then
          ({ r with
              retry_count := r.retry_count + 1
              next_retry_at := none
              response_code := none
              response_body := some "Missing webhook configuration"
              delivered_at := now }, 0)
        else
          let res := deliver true (oracle (r.event_id, r.merchant_id))
          if res.1 then
            ({ r with
                success := true
                next_retry_at := none
                delivered_at := now }, 1)
          else
            let new_retry_count := r.retry_count + 1
            let next_retry :=
              if new_retry_count < retry_delays.length then
                some (now + retry_delays.getD new_retry_count 0)
              else none
            ({ r with
                retry_count := new_retry_count
                next_retry_at := next_retry
                response_code := res.2.1
                response_body := res.2.2
                delivered_at := now }, 1)
      | _, _ =>
        ({ r with
            retry_count := r.retry_count + 1
            next_retry_at := none
            response_code := none
            response_body := some "Missing webhook configuration"
            delivered_at := now }, 0)
  else (r, 0)

/-- One sweep of the webhook retry processor over the ledger: every row
is stepped independently; the second component counts transport calls. -/
def webhookRetryTick (retry_delays : List Nat) (dir : List Merchant)
    (now : Nat) (oracle : String × String → HttpOutcome) (led : Ledger) :
    Ledger × Nat :=
  ((led : List DeliveryRecord).map
      (fun r => (webhookRetryStep retry_delays dir now oracle r).1),
   ((led : List DeliveryRecord).map
      (fun r => (webhookRetryStep retry_delays dir now oracle r).2)).sum)

/-- `TelegramService._retry_delivery` applied to row `r` (including the
pending/method filter of `_process_retries`). -/
def telegramRetryStep (dir : List Merchant) (now : Nat)
    (oracle : String × String → TgResult) (r : DeliveryRecord) :
    DeliveryRecord × Nat :=
  if isPendingRetry now r && r.delivery_method == "telegram" then
    match get_merchant dir r.merchant_id with
    | none => (r, 0)
    | some m =>
      match m.telegram_chat_id with
      | none =>
        ({ r with
            retry_count := r.retry_count + 1
            next_retry_at := none
            response_code := none
            response_body := some "Missing Telegram configuration"
            delivered_at := now }, 0)
      | some _ =>
        if r.payload == "" then
          ({ r with
              retry_count := r.retry_count + 1
              next_retry_at := none
              response_code := none
              response_body := some "Missing Telegram configuration"
              delivered_at := now }, 0)
        else
          let o := oracle (r.event_id, r.merchant_id)
          if o.ok then
            ({ r with
                success := true
                next_retry_at := none
                delivered_at := now }, 1)
          else
            let new_retry_count := r.retry_count + 1
            let next_retry :=
              if new_retry_count < 3 then some (now + 5 * new_retry_count)
              else none
            ({ r with
                retry_count := new_retry_count
                next_retry_at := next_retry
                response_code := o.error_code
                response_body := some o.rendered
                delivered_at := now }, 1)
  else (r, 0)

/-- One sweep of the Telegram retry processor over the ledger. -/
def telegramRetryTick (dir : List Merchant) (now : Nat)
    (oracle : String × String → TgResult) (led : Ledger) : Ledger × Nat :=
  ((led : List DeliveryRecord).map
      (fun r => (telegramRetryStep dir now oracle r).1),
   ((led : List DeliveryRecord).map
      (fun r => (telegramRetryStep dir now oracle r).2)).sum)

/-! ## Telegram rate limiter (`TelegramService._apply_rate_limit`)

Time is milliseconds as `Nat`; `RATE_LIMIT = 20`, `RATE_PERIOD = 1000`.
A send is instantaneous apart from the limiter's own sleep, and each send
starts when the previous one completes ("issued instantly").  Note the
source appends `now` — the time observed *before* sleeping — to the
window. -/

/-- Rate limiter state: current time and `_last_send_times`. -/
structure RateState where
  time : Nat
  last_send_times : List Nat
deriving Repr, DecidableEq

/-- `_apply_rate_limit`: drop expired timestamps, sleep if the window is
full, record the (pre-sleep) timestamp. -/
def apply_rate_limit (st : RateState) : RateState :=
  let now := st.time
  let kept := st.last_send_times.filter (fun t => now - t < 1000)
  let time' :=
    if 20 ≤ kept.length then
      let wait := kept.headD 0 + 1000 - now
      if 0 < wait then now + wait else now
    else now
  { time := time', last_send_times := kept ++ [now] }

/-- Run `n` back-to-back sends through the limiter, collecting each
send's completion time. -/
def runSends : Nat → RateState → List Nat × RateState
  | 0, st => ([], st)
  | n + 1, st =>
    let st' := apply_rate_limit st
    let rest := runSends n st'
    (st'.time :: rest.1, rest.2)

/-- Completion times of `n` chat sends all issued at time `0`. -/
def burstCompletions (n : Nat) : List Nat :=
  (runSends n { time := 0, last_send_times := [] }).1

/-- How many completions fall in the trailing window `(s, s + 1000]`. -/
def countWindow (times : List Nat) (s : Nat) : Nat :=
  (times.filter (fun c => decide (s < c ∧ c ≤ s + 1000))).length

/-! ## Observation helpers and concrete scenario states -/

/-- The ledger row for an (event id, merchant id) key, if any. -/
def ledgerLookup (led : Ledger) (event_id merchant_id : String) :
    Option DeliveryRecord :=
  (led : List DeliveryRecord).find?
    (fun r => r.event_id == event_id && r.merchant_id == merchant_id)

/-- The retry-relevant fields of every ledger row:
(retry count, next retry time, success). -/
def recSummary (led : Ledger) : List (Nat × Option Nat × Bool) :=
  (led : List DeliveryRecord).map (fun r => (r.retry_count, r.next_retry_at, r.success))

/-- A sample payment event (all fields already lowercase). -/
def sampleEvent : PaymentEvent :=
  { payment_intent_id := "pid"
    merchant_id := "0xm"
    customer_address := "0xc"
    token_address := "0xt"
    amount := 5
    transaction_hash := "0xh"
    block_number := 1
    block_timestamp := "2024-01-01 00:00:00" }

/-- The default webhook retry-delay schedule `[1, 5, 15, 60]` minutes. -/
def sampleDelays : List Nat := [1, 5, 15, 60]

/-- A webhook merchant with URL and secret configured. -/
def webhookMerchant : Merchant :=
  { id := "0xm"
    notification_type := .webhook
    webhook_url := some "https://merchant.example/hook"
    webhook_secret := some "s3cr3t" }

/-- A Telegram merchant with a chat id configured. -/
def telegramMerchant : Merchant :=
  { id := "0xm"
    notification_type := .telegram
    telegram_chat_id := some "42" }

/-- `telegramMerchant` after `update_merchant_status(is_active=False)`. -/
def deactivatedMerchant : Merchant :=
  { telegramMerchant with is_active := false }

/-- A failing HTTP response (status 500). -/
def httpFail : HttpOutcome := .resp 500 "err"

/-- A per-row oracle that always answers with `httpFail`. -/
def failingHttp : String × String → HttpOutcome := fun _ => httpFail

/-- A failing bot-API response. -/
def tgFail : TgResult := { ok := false, error_code := some 429, rendered := "resp" }

/-- A per-row oracle that always answers with `tgFail`. -/
def failingTg : String × String → TgResult := fun _ => tgFail

/-- Webhook scenario, failure 1: live delivery at minute 0 fails. -/
def wLed1 : Ledger :=
  (route_notification [webhookMerchant] sampleDelays "https://sepolia.etherscan.io"
    [] {} sampleEvent "payment.completed" 0 "ts" httpFail tgFail).ledger

/-- Webhook scenario, failure 2: retry sweep at minute 100 fails. -/
def wLed2 : Ledger :=
  (webhookRetryTick sampleDelays [webhookMerchant] 100 failingHttp wLed1).1

/-- Webhook scenario, failure 3: retry sweep at minute 200 fails. -/
def wLed3 : Ledger :=
  (webhookRetryTick sampleDelays [webhookMerchant] 200 failingHttp wLed2).1

/-- Webhook scenario, failure 4: retry sweep at minute 300 fails. -/
def wLed4 : Ledger :=
  (webhookRetryTick sampleDelays [webhookMerchant] 300 failingHttp wLed3).1

/-- Webhook scenario, failure 5: retry sweep at minute 400 fails. -/
def wLed5 : Ledger :=
  (webhookRetryTick sampleDelays [webhookMerchant] 400 failingHttp wLed4).1

/-- Telegram scenario, failure 1: live delivery at minute 0 fails. -/
def tLed1 : Ledger :=
  (route_notification [telegramMerchant] sampleDelays "https://sepolia.etherscan.io"
    [] {} sampleEvent "payment.completed" 0 "ts" httpFail tgFail).ledger

/-- Telegram scenario, failure 2: retry sweep at minute 100 fails. -/
def tLed2 : Ledger :=
  (telegramRetryTick [telegramMerchant] 100 failingTg tLed1).1

/-- Telegram scenario, failure 3: retry sweep at minute 200 fails. -/
def tLed3 : Ledger :=
  (telegramRetryTick [telegramMerchant] 200 failingTg tLed2).1

/-- Telegram scenario, failure 4: retry sweep at minute 300 fails
(this one exhausts the cap of 3 retries). -/
def tLed4 : Ledger :=
  (telegramRetryTick [telegramMerchant] 300 failingTg tLed3).1

/-- Telegram scenario: a fourth retry sweep at minute 400. -/
def tTick4 : Ledger × Nat :=
  telegramRetryTick [telegramMerchant] 400 failingTg tLed4

/-- One successful Telegram delivery of `sampleEvent` at minute 0,
starting from an empty ledger. -/
def firstRoute : RouteResult :=
  route_notification [telegramMerchant] sampleDelays "https://sepolia.etherscan.io"
    [] {} sampleEvent "payment.completed" 0 "ts" httpFail { ok := true }

/-- The ledger after that successful delivery. -/
def deliveredLedger : Ledger :=
  firstRoute.ledger

/-- A second routing of the same event against the same directory. -/
def secondRoute : RouteResult :=
  route_notification [telegramMerchant] sampleDelays "https://sepolia.etherscan.io"
    deliveredLedger {} sampleEvent "payment.completed" 7 "ts2" httpFail { ok := true }

/-- Replay of `sampleEvent` at minute 9 after the merchant was
deactivated in the directory. -/
def replayRoute : RouteResult :=
  route_notification [deactivatedMerchant] sampleDelays "https://sepolia.etherscan.io"
    deliveredLedger {} sampleEvent "payment.completed" 9 "ts2" httpFail { ok := true }

/-- A payment event whose token is mainnet USDT (6 decimals) and whose
raw amount is `100000000`. -/
def usdtEvent : PaymentEvent :=
  { payment_intent_id := "pid"
    merchant_id := "0xm"
    customer_address := "0xc"
    token_address := "0xdac17f958d2ee523a2206206994597c13d831ec7"
    amount := 100000000
    transaction_hash := "0xh"
    block_number := 1
    block_timestamp := "2024-01-01 00:00:00" }

/-- A pending (failed, retry due at minute 1) Telegram ledger row. -/
def pendingTelegramRecord : DeliveryRecord :=
  { merchant_id := "0xm"
    event_type := "payment.completed"
    event_id := "evt_0xh_pid"
    delivery_method := "telegram"
    payload := "msg"
    success := false
    response_code := some 429
    response_body := some "resp"
    retry_count := 0
    next_retry_at := some 1
    delivered_at := 0
    created_at := 0 }

/-- A terminal-success ledger row for `sampleEvent`'s key. -/
def successRecord : DeliveryRecord :=
  { merchant_id := "0xm"
    event_type := "payment.completed"
    event_id := "evt_0xh_pid"
    delivery_method := "telegram"
    payload := "msg"
    success := true
    response_code := some 200
    response_body := some "ok"
    retry_count := 0
    next_retry_at := none
    delivered_at := 0
    created_at := 0 }

/-- A sample webhook payload (used to exhibit HMAC collisions between
distinct secrets). -/
def samplePayload : WebhookPayload :=
  { event_id := "evt_0xh_pid"
    event_type := "payment.completed"
    timestamp := "ts"
    data := [("amount", .str "5")] }

/-- A payment event on mainnet USDC with raw amount `100000000`. -/
def usdcEvent : PaymentEvent :=
  { usdtEvent with token_address := "0xa0b86991c6218b36c1d19d4a2e9eb0ce3606eb48" }

/-- A payment event on mainnet DAI (18 decimals). -/
def daiEvent : PaymentEvent :=
  { usdtEvent with
    token_address := "0x6b175474e89094c44da98b954eedeac495271d0f"
    amount := 123456789 }

/-- A raw event carrying mixed-case hash and addresses. -/
def eventUpperCase : PaymentEvent :=
  { payment_intent_id := "pid"
    merchant_id := "0xAB"
    customer_address := "0xCD"
    token_address := "0xt"
    amount := 5
    transaction_hash := "0xEF12"
    block_number := 1
    block_timestamp := "2024-01-01 00:00:00" }

/-- The same raw event with hash and addresses in lower case. -/
def eventLowerCase : PaymentEvent :=
  { eventUpperCase with
    merchant_id := "0xab"
    customer_address := "0xcd"
    transaction_hash := "0xef12" }

/-! # Helper lemmas -/

theorem natDigitsAux_length_le (fuel : Nat) :
    ∀ p n : Nat, n < fuel → n < 10 ^ p → 0 < p →
      (natDigitsAux fuel n).length ≤ p := by
  induction fuel with
  | zero => intro p n hf _ _; omega
  | succ fuel ih =>
    intro p n _ hp hp0
    by_cases h : n < 10
    · simp [natDigitsAux, h]; omega
    · have hn10 : 10 ≤ n := by omega
      have hdiv : n / 10 < n := Nat.div_lt_self (by omega) (by omega)
      have hp2 : 2 ≤ p := by
        by_contra hc
        have : p = 1 := by omega
        subst this
        simp at hp
        omega
      obtain ⟨q, rfl⟩ : ∃ q, p = q + 1 := ⟨p - 1, by omega⟩
      have hq : n / 10 < 10 ^ q := by
        rw [Nat.div_lt_iff_lt_mul (by omega : (0 : Nat) < 10)]
        calc n < 10 ^ (q + 1) := hp
        _ = 10 ^ q * 10 := by ring
      have := ih q (n / 10) (by omega) hq (by omega)
      simp [natDigitsAux, h]
      omega

theorem natDigits_length_le {p n : Nat} (hp : n < 10 ^ p) (hp0 : 0 < p) :
    (natDigits n).length ≤ p :=
  natDigitsAux_length_le (n + 1) p n (by omega) hp hp0

theorem padRepr_length {n p : Nat} (hn : n < 10 ^ p) (hp0 : 0 < p) :
    (padRepr n p).length = p := by
  have h := natDigits_length_le hn hp0
  simp [padRepr, String.length]
  omega

theorem caseEqChars_map :
    ∀ as bs : List Char, caseEqChars as bs = true →
      as.map lowerChar = bs.map lowerChar := by
  intro as
  induction as with
  | nil => intro bs h; cases bs <;> simp_all [caseEqChars]
  | cons a as ih =>
    intro bs h
    cases bs with
    | nil => simp [caseEqChars] at h
    | cons b bs =>
      simp only [caseEqChars, Bool.and_eq_true, beq_iff_eq] at h
      simp [h.1, ih bs h.2]

theorem caseEq_pyLower {s t : String} (h : caseEq s t = true) :
    pyLower s = pyLower t :=
  congrArg String.mk (caseEqChars_map s.data t.data h)

theorem get_merchant_id {dir : List Merchant} {mid : String} {m : Merchant}
    (h : get_merchant dir mid = some m) : m.id = mid := by
  have := List.find?_some h
  simpa using this

theorem check_processed_log (led : Ledger) (r : DeliveryRecord)
    (hr : r.success = true) :
    check_event_processed (log_delivery led r) r.event_id r.merchant_id = true := by
  unfold check_event_processed log_delivery
  by_cases hany :
      (led : List DeliveryRecord).any
        (fun o => o.event_id == r.event_id && o.merchant_id == r.merchant_id) = true
  · simp only [hany, if_true]
    rw [List.any_eq_true] at hany ⊢
    obtain ⟨o, hmem, ho⟩ := hany
    refine ⟨_, List.mem_map_of_mem _ hmem, ?_⟩
    simp only [Bool.and_eq_true, beq_iff_eq] at ho
    simp [ho.1, ho.2, hr]
  · simp only [hany, if_false, Bool.false_eq_true]
    rw [List.any_eq_true]
    exact ⟨r, by simp, by simp [hr]⟩

theorem webhookSend_success_spec (d : List Nat) (m : Merchant) (ev : PaymentEvent)
    (et : String) (now : Nat) (ts : String) (o : HttpOutcome) (led : Ledger)
    (h : (webhookSend d m ev et now ts o led).1.1 = true) :
    (webhookSend d m ev et now ts o led).2.2 = 1 ∧
    check_event_processed (webhookSend d m ev et now ts o led).2.1
      ev.get_event_id m.id = true := by
  unfold webhookSend at h ⊢
  by_cases hw : m.is_webhook
  · simp only [hw, Bool.not_true, Bool.false_eq_true, if_false] at h ⊢
    cases hu : m.webhook_url with
    | none => rw [hu] at h; simp at h
    | some u =>
      cases hs : m.webhook_secret with
      | none => rw [hu, hs] at h; simp at h
      | some s =>
        rw [hu, hs] at h
        exact ⟨rfl, check_processed_log led _ h⟩
  · simp [hw] at h

theorem telegramSend_success_spec (eth : String) (m : Merchant) (ev : PaymentEvent)
    (et : String) (now : Nat) (o : TgResult) (led : Ledger)
    (h : (telegramSend eth m ev et now o led).1.1 = true) :
    (telegramSend eth m ev et now o led).2.2 = 1 ∧
    check_event_processed (telegramSend eth m ev et now o led).2.1
      ev.get_event_id m.id = true := by
  unfold telegramSend at h ⊢
  by_cases ht : m.is_telegram
  · simp only [ht, Bool.not_true, Bool.false_eq_true, if_false] at h ⊢
    cases hc : m.telegram_chat_id with
    | none => rw [hc] at h; simp at h
    | some c =>
      rw [hc] at h
      exact ⟨rfl, check_processed_log led _ h⟩
  · simp [ht] at h

theorem find?_map_of_found {α : Type} (f : α → α) (p : α → Bool) :
    ∀ l : List α, (∀ o, p (f o) = p o) → ∀ a, l.find? p = some a → f a = a →
      (l.map f).find? p = some a := by
  intro l hp
  induction l with
  | nil => intro a h _; simp [List.find?] at h
  | cons o l ih =>
    intro a h hfa
    rw [List.map_cons, List.find?_cons, hp o]
    rw [List.find?_cons] at h
    cases hpo : p o with
    | true => rw [hpo] at h; simp at h; subst h; simp [hfa]
    | false => rw [hpo] at h; exact ih a h hfa

theorem find?_map_invariant {α : Type} (f : α → α) (p : α → Bool)
    (hp : ∀ o, p (f o) = p o) (hfix : ∀ o, p o = true → f o = o) :
    ∀ l : List α, (l.map f).find? p = l.find? p := by
  intro l
  induction l with
  | nil => rfl
  | cons o l ih =>
    rw [List.map_cons, List.find?_cons, List.find?_cons, hp o]
    cases hpo : p o with
    | true => simp [hfix o hpo]
    | false => exact ih

theorem webhookRetryStep_ids (d : List Nat) (dir : List Merchant) (now : Nat)
    (o : String × String → HttpOutcome) (r : DeliveryRecord) :
    (webhookRetryStep d dir now o r).1.event_id = r.event_id ∧
    (webhookRetryStep d dir now o r).1.merchant_id = r.merchant_id := by
  unfold webhookRetryStep
  refine ⟨?_, ?_⟩ <;> dsimp only <;> (repeat' split) <;> rfl

theorem telegramRetryStep_ids (dir : List Merchant) (now : Nat)
    (o : String × String → TgResult) (r : DeliveryRecord) :
    (telegramRetryStep dir now o r).1.event_id = r.event_id ∧
    (telegramRetryStep dir now o r).1.merchant_id = r.merchant_id := by
  unfold telegramRetryStep
  refine ⟨?_, ?_⟩ <;> dsimp only <;> (repeat' split) <;> rfl

theorem webhookRetryStep_success_fix (d : List Nat) (dir : List Merchant)
    (now : Nat) (o : String × String → HttpOutcome) (r : DeliveryRecord)
    (h : r.success = true) :
    webhookRetryStep d dir now o r = (r, 0) := by
  simp [webhookRetryStep, isPendingRetry, h]

theorem telegramRetryStep_success_fix (dir : List Merchant) (now : Nat)
    (o : String × String → TgResult) (r : DeliveryRecord)
    (h : r.success = true) :
    telegramRetryStep dir now o r = (r, 0) := by
  simp [telegramRetryStep, isPendingRetry, h]

theorem check_of_lookup_success {led : Ledger} {eid mid : String}
    {r : DeliveryRecord} (h : ledgerLookup led eid mid = some r)
    (hs : r.success = true) : check_event_processed led eid mid = true := by
  unfold check_event_processed
  rw [List.any_eq_true]
  refine ⟨r, List.mem_of_find?_eq_some h, ?_⟩
  have hp := List.find?_some h
  simp only [Bool.and_eq_true] at hp ⊢
  exact ⟨hp, hs⟩

theorem log_delivery_lookup_ne (led : Ledger) (rec : DeliveryRecord)
    (eid mid : String) (hne : ¬(rec.event_id = eid ∧ rec.merchant_id = mid)) :
    ledgerLookup (log_delivery led rec) eid mid = ledgerLookup led eid mid := by
  unfold ledgerLookup log_delivery
  by_cases hany :
      (led : List DeliveryRecord).any
        (fun o => o.event_id == rec.event_id && o.merchant_id == rec.merchant_id) = true
  · simp only [hany, if_true]
    apply find?_map_invariant
    · intro o
      by_cases hc : (o.event_id == rec.event_id && o.merchant_id == rec.merchant_id) = true
      · simp [hc]
      · simp [hc]
    · intro o hpo
      simp only [Bool.and_eq_true, beq_iff_eq] at hpo
      have hc : (o.event_id == rec.event_id && o.merchant_id == rec.merchant_id) = false := by
        rw [Bool.and_eq_false_iff]
        by_cases h1 : o.event_id == rec.event_id
        · right
          simp only [beq_iff_eq] at h1
          simp only [beq_eq_false_iff_ne, ne_eq]
          intro h2
          exact hne ⟨by rw [← h1, hpo.1], by rw [← h2, hpo.2]⟩
        · left; simpa using h1
      simp [hc]
  · simp only [hany, Bool.false_eq_true, if_false]
    rw [List.find?_append]
    have : List.find? (fun r => r.event_id == eid && r.merchant_id == mid) [rec] = none := by
      simp only [List.find?_cons, List.find?_nil]
      have hc : (rec.event_id == eid && rec.merchant_id == mid) = false := by
        rw [Bool.and_eq_false_iff]
        by_cases h1 : rec.event_id == eid
        · right
          simp only [beq_iff_eq] at h1
          simp only [beq_eq_false_iff_ne, ne_eq]
          intro h2
          exact hne ⟨h1, h2⟩
        · left; simpa using h1
      rw [hc]
    rw [this]
    cases List.find? (fun r => r.event_id == eid && r.merchant_id == mid)
        (led : List DeliveryRecord) <;> rfl

theorem route_ledger_cases (dir : List Merchant) (delays : List Nat)
    (eth : String) (led : Ledger) (st : RouterStats) (ev : PaymentEvent)
    (et : String) (now : Nat) (ts : String) (hO : HttpOutcome) (tO : TgResult) :
    (route_notification dir delays eth led st ev et now ts hO tO).ledger = led ∨
    (check_event_processed led ev.get_event_id ev.merchant_id = false ∧
      ∃ rec : DeliveryRecord, rec.event_id = ev.get_event_id ∧
        rec.merchant_id = ev.merchant_id ∧
        (route_notification dir delays eth led st ev et now ts hO tO).ledger =
          log_delivery led rec) := by
  unfold route_notification
  by_cases hproc : check_event_processed led ev.get_event_id ev.merchant_id = true
  · left; simp [hproc]
  · rw [Bool.not_eq_true] at hproc
    simp only [hproc, Bool.false_eq_true, if_false]
    cases hdir : get_merchant dir ev.merchant_id with
    | none => left; rfl
    | some m =>
      have hmid : m.id = ev.merchant_id := get_merchant_id hdir
      dsimp only
      cases hact : m.is_active with
      | false => left; rfl
      | true =>
        simp only [Bool.not_true]
        simp only [if_neg (show ¬(false = true) by simp)]
        cases hnt : m.notification_type with
        | webhook =>
          dsimp only
          unfold webhookSend
          have hw : m.is_webhook = true := by simp [Merchant.is_webhook, hnt]
          simp only [hw, Bool.not_true]
          simp only [if_neg (show ¬(false = true) by simp)]
          cases hu : m.webhook_url with
          | none => left; rfl
          | some u =>
            cases hs : m.webhook_secret with
            | none => left; rfl
            | some s =>
              right
              exact ⟨trivial, _, rfl, hmid, rfl⟩
        | telegram =>
          dsimp only
          unfold telegramSend
          have ht : m.is_telegram = true := by simp [Merchant.is_telegram, hnt]
          simp only [ht, Bool.not_true]
          simp only [if_neg (show ¬(false = true) by simp)]
          cases hc : m.telegram_chat_id with
          | none => left; rfl
          | some c =>
            right
            exact ⟨trivial, _, rfl, hmid, rfl⟩

theorem to_json_beq_empty (p : WebhookPayload) : (p.to_json == "") = false := by
  rw [beq_eq_false_iff_ne]
  intro h
  have hlen := congrArg String.length h
  unfold WebhookPayload.to_json dumpTop at hlen
  rw [String.length_append, String.length_append] at hlen
  have h1 : ("\x7b" : String).length = 1 := rfl
  have h2 : ("\x7d" : String).length = 1 := rfl
  have h3 : ("" : String).length = 0 := rfl
  omega

theorem webhookRetryStep_fail (d : List Nat) (dir : List Merchant) (now : Nat)
    (oracle : String × String → HttpOutcome) (r : DeliveryRecord) (m : Merchant)
    (u s : String)
    (hpend : isPendingRetry now r = true) (hmeth : r.delivery_method = "webhook")
    (hdir : get_merchant dir r.merchant_id = some m) (hu : m.webhook_url = some u)
    (hs : m.webhook_secret = some s) (hpl : (r.payload == "") = false)
    (hf : (deliver true (oracle (r.event_id, r.merchant_id))).1 = false) :
    webhookRetryStep d dir now oracle r =
      ({ r with
          retry_count := r.retry_count + 1
          next_retry_at :=
            if r.retry_count + 1 < d.length then
              some (now + d.getD (r.retry_count + 1) 0)
            else none
          response_code := (deliver true (oracle (r.event_id, r.merchant_id))).2.1
          response_body := (deliver true (oracle (r.event_id, r.merchant_id))).2.2
          delivered_at := now }, 1) := by
  unfold webhookRetryStep
  rw [hpend, hmeth]
  simp only [beq_self_eq_true, Bool.and_true, if_true]
  rw [hdir]
  dsimp only
  rw [hu, hs]
  dsimp only
  rw [hpl]
  simp only [Bool.false_eq_true, if_false]
  rw [hf]
  simp only [Bool.false_eq_true, if_false]

theorem telegramRetryStep_fail (dir : List Merchant) (now : Nat)
    (oracle : String × String → TgResult) (r : DeliveryRecord) (m : Merchant)
    (c : String)
    (hpend : isPendingRetry now r = true) (hmeth : r.delivery_method = "telegram")
    (hdir : get_merchant dir r.merchant_id = some m)
    (hc : m.telegram_chat_id = some c) (hpl : (r.payload == "") = false)
    (hf : (oracle (r.event_id, r.merchant_id)).ok = false) :
    telegramRetryStep dir now oracle r =
      ({ r with
          retry_count := r.retry_count + 1
          next_retry_at :=
            if r.retry_count + 1 < 3 then some (now + 5 * (r.retry_count + 1))
            else none
          response_code := (oracle (r.event_id, r.merchant_id)).error_code
          response_body := some (oracle (r.event_id, r.merchant_id)).rendered
          delivered_at := now }, 1) := by
  unfold telegramRetryStep
  rw [hpend, hmeth]
  simp only [beq_self_eq_true, Bool.and_true, if_true]
  rw [hdir]
  dsimp only
  rw [hc]
  dsimp only
  rw [hpl]
  simp only [Bool.false_eq_true, if_false]
  rw [hf]
  simp only [Bool.false_eq_true, if_false]

theorem wLed1_shape :
    ∃ r1 : DeliveryRecord, wLed1 = [r1] ∧ r1.merchant_id = "0xm" ∧
      r1.event_id = "evt_0xh_pid" ∧ r1.delivery_method = "webhook" ∧
      (r1.payload == "") = false ∧ r1.success = false ∧ r1.retry_count = 0 ∧
      r1.next_retry_at = some 1 := by
  refine ⟨{ merchant_id := "0xm"
            event_type := "payment.completed"
            event_id := "evt_0xh_pid"
            delivery_method := "webhook"
            payload := ((WebhookPayload.from_payment_event sampleEvent
              "payment.completed" "ts").signPayload "s3cr3t").to_json
            success := false
            response_code := some 500
            response_body := some "err"
            retry_count := 0
            next_retry_at := some 1
            delivered_at := 0
            created_at := 0 }, ?_, rfl, rfl, rfl, to_json_beq_empty _, rfl, rfl, rfl⟩
  rfl

theorem webhookTick_singleton_fail (now : Nat) (r : DeliveryRecord)
    (hmid : r.merchant_id = "0xm") (heid : r.event_id = "evt_0xh_pid")
    (hmeth : r.delivery_method = "webhook") (hpl : (r.payload == "") = false)
    (hsucc : r.success = false) (t : Nat) (hnra : r.next_retry_at = some t)
    (ht : t ≤ now) :
    ∃ r' : DeliveryRecord,
      (webhookRetryTick sampleDelays [webhookMerchant] now failingHttp [r]).1 = [r'] ∧
      r'.merchant_id = "0xm" ∧ r'.event_id = "evt_0xh_pid" ∧
      r'.delivery_method = "webhook" ∧ (r'.payload == "") = false ∧
      r'.success = false ∧ r'.retry_count = r.retry_count + 1 ∧
      r'.next_retry_at =
        (if r.retry_count + 1 < 4 then
          some (now + sampleDelays.getD (r.retry_count + 1) 0)
        else none) := by
  have hpend : isPendingRetry now r = true := by
    simp [isPendingRetry, hsucc, hnra, ht]
  have hdir : get_merchant [webhookMerchant] r.merchant_id = some webhookMerchant := by
    rw [hmid]; decide
  have hstep := webhookRetryStep_fail sampleDelays [webhookMerchant] now failingHttp r
    webhookMerchant "https://merchant.example/hook" "s3cr3t" hpend hmeth hdir
    (by decide) (by decide) hpl rfl
  refine ⟨(webhookRetryStep sampleDelays [webhookMerchant] now failingHttp r).1, rfl,
    ?_, ?_, ?_, ?_, ?_, ?_, ?_⟩
  · rw [hstep]; exact hmid
  · rw [hstep]; exact heid
  · rw [hstep]; exact hmeth
  · rw [hstep]; exact hpl
  · rw [hstep]; exact hsucc
  · rw [hstep]
  · rw [hstep]; rfl

theorem webhook_trace_summary :
    recSummary wLed1 = [(0, some 1, false)] ∧
    recSummary wLed2 = [(1, some 105, false)] ∧
    recSummary wLed3 = [(2, some 215, false)] ∧
    recSummary wLed4 = [(3, some 360, false)] ∧
    recSummary wLed5 = [(4, none, false)] := by
  obtain ⟨r1, hw1, hm1, he1, hd1, hp1, hs1, hc1, hn1⟩ := wLed1_shape
  obtain ⟨r2, hw2, hm2, he2, hd2, hp2, hs2, hc2, hn2⟩ :=
    webhookTick_singleton_fail 100 r1 hm1 he1 hd1 hp1 hs1 1 hn1 (by omega)
  have hw2' : wLed2 = [r2] := by unfold wLed2; rw [hw1]; exact hw2
  have hc2' : r2.retry_count = 1 := by rw [hc2, hc1]
  have hn2' : r2.next_retry_at = some 105 := by rw [hn2, hc1]; rfl
  obtain ⟨r3, hw3, hm3, he3, hd3, hp3, hs3, hc3, hn3⟩ :=
    webhookTick_singleton_fail 200 r2 hm2 he2 hd2 hp2 hs2 105 hn2' (by omega)
  have hw3' : wLed3 = [r3] := by unfold wLed3; rw [hw2']; exact hw3
  have hc3' : r3.retry_count = 2 := by rw [hc3, hc2']
  have hn3' : r3.next_retry_at = some 215 := by rw [hn3, hc2']; rfl
  obtain ⟨r4, hw4, hm4, he4, hd4, hp4, hs4, hc4, hn4⟩ :=
    webhookTick_singleton_fail 300 r3 hm3 he3 hd3 hp3 hs3 215 hn3' (by omega)
  have hw4' : wLed4 = [r4] := by unfold wLed4; rw [hw3']; exact hw4
  have hc4' : r4.retry_count = 3 := by rw [hc4, hc3']
  have hn4' : r4.next_retry_at = some 360 := by rw [hn4, hc3']; rfl
  obtain ⟨r5, hw5, hm5, he5, hd5, hp5, hs5, hc5, hn5⟩ :=
    webhookTick_singleton_fail 400 r4 hm4 he4 hd4 hp4 hs4 360 hn4' (by omega)
  have hw5' : wLed5 = [r5] := by unfold wLed5; rw [hw4']; exact hw5
  have hc5' : r5.retry_count = 4 := by rw [hc5, hc4']
  have hn5' : r5.next_retry_at = none := by rw [hn5, hc4']; rfl
  refine ⟨?_, ?_, ?_, ?_, ?_⟩
  · rw [hw1]; simp [recSummary, hc1, hn1, hs1]
  · rw [hw2']; simp [recSummary, hc2', hn2', hs2]
  · rw [hw3']; simp [recSummary, hc3', hn3', hs3]
  · rw [hw4']; simp [recSummary, hc4', hn4', hs4]
  · rw [hw5']; simp [recSummary, hc5', hn5', hs5]

theorem route_processed (dir : List Merchant) (delays : List Nat) (eth : String)
    (led : Ledger) (st : RouterStats) (ev : PaymentEvent) (et : String)
    (now : Nat) (ts : String) (hO : HttpOutcome) (tO : TgResult)
    (h : check_event_processed led ev.get_event_id ev.merchant_id = true) :
    (route_notification dir delays eth led st ev et now ts hO tO).delivered = true ∧
    (route_notification dir delays eth led st ev et now ts hO tO).error = none ∧
    (route_notification dir delays eth led st ev et now ts hO tO).ledger = led ∧
    (route_notification dir delays eth led st ev et now ts hO tO).transportCalls = 0 := by
  unfold route_notification
  simp [h]

/-! # Claim theorems -/

/-- C7: a webhook delivery attempt succeeds exactly when the HTTP status
is in `[200, 300)` (the returned flag is `decide (200 ≤ s ∧ s < 300)`),
and on the three failure shapes the attempt carries the status code and
body for an HTTP response, no code and the error text for a network
error, and no code and `"Request timeout"` for a timeout. -/
theorem webhook_outcome_classification :
    (∀ (status : Int) (body : String),
      deliver true (.resp status body) =
        (decide (200 ≤ status ∧ status < 300), some status, some body)) ∧
    (∀ e : String, deliver true (.netError e) = (false, none, some e)) ∧
    deliver true .timeout = (false, none, some "Request timeout") := by
  refine ⟨fun status body => ?_, fun e => rfl, rfl⟩
  by_cases h : 200 ≤ status ∧ status < 300 <;> simp [deliver, h]

/-- C6: in the 25-send burst the 21st send (index 20) is delayed to
t = 1000 ms, the expiry of the oldest window timestamp, as the claim
says; but because `_apply_rate_limit` records the pre-sleep timestamp,
a 41-send burst completes 21 sends inside the trailing one-second window
`(0, 1000]` — more than the 20-per-second limit the claim asserts. -/
theorem rate_limit_window_exceeded :
    (burstCompletions 25).getD 20 0 = 1000 ∧
    countWindow (burstCompletions 25) 0 = 5 ∧
    countWindow (burstCompletions 41) 0 = 21 := by
  decide

/-- C9 counterexample: mainnet USDT has 6 decimals, and raw amount
`100000000` on it formats to `"100.00 USDT"`, not `"100.00 USDC"` as the
claim states for every 6-decimal token. -/
theorem usdt_formatting_counterexample :
    usdtEvent.get_token_decimals = 6 ∧ usdtEvent.amount = 100000000 ∧
    usdtEvent.get_formatted_amount = "100.00 USDT" ∧
    usdtEvent.get_formatted_amount ≠ "100.00 USDC" := by
  decide

/-- C9 (amended): raw amount `100000000` on a 6-decimal token whose
symbol resolves to USDC formats to `"100.00 USDC"`; and on every
18-decimal token the formatted amount is rendered with exactly 4 decimal
places, followed by the token symbol. -/
theorem formatted_amount_shape :
    (∀ e : PaymentEvent, e.get_token_symbol = "USDC" →
      e.get_token_decimals = 6 → e.amount = 100000000 →
      e.get_formatted_amount = "100.00 USDC") ∧
    (∀ e : PaymentEvent, e.get_token_decimals = 18 →
      ∃ intPart frac : String,
        e.get_formatted_amount = intPart ++ "." ++ frac ++ " " ++ e.get_token_symbol ∧
        frac.length = 4) := by
  constructor
  · intro e hs hd ha
    simp only [PaymentEvent.get_formatted_amount, hs, hd, ha]
    norm_num
    decide
  · intro e hd
    simp only [PaymentEvent.get_formatted_amount, hd]
    norm_num
    refine ⟨(if halfEvenRound (e.amount * 10 ^ 4) (10 ^ 18) < 0 then "-" else "") ++
      natRepr ((halfEvenRound (e.amount * 10 ^ 4) (10 ^ 18)).natAbs / 10 ^ 4),
      padRepr ((halfEvenRound (e.amount * 10 ^ 4) (10 ^ 18)).natAbs % 10 ^ 4) 4, ?_, ?_⟩
    · simp [formatFixed, String.append_assoc]
    · exact padRepr_length (Nat.mod_lt _ (by norm_num)) (by norm_num)

/-- C10: the constructor lowercases merchant id, customer address, token
address and transaction hash; consequently two raw events that differ
only in the letter case of their transaction hash or their merchant /
customer addresses yield the same event id and the same deduplication
key. -/
theorem event_id_case_insensitive :
    (∀ e : PaymentEvent,
      (mkPaymentEvent e).merchant_id = pyLower e.merchant_id ∧
      (mkPaymentEvent e).customer_address = pyLower e.customer_address ∧
      (mkPaymentEvent e).token_address = pyLower e.token_address ∧
      (mkPaymentEvent e).transaction_hash = pyLower e.transaction_hash) ∧
    (∀ e1 e2 : PaymentEvent,
      caseEq e1.transaction_hash e2.transaction_hash = true →
      caseEq e1.merchant_id e2.merchant_id = true →
      caseEq e1.customer_address e2.customer_address = true →
      e1.payment_intent_id = e2.payment_intent_id →
      e1.token_address = e2.token_address →
      e1.amount = e2.amount →
      e1.block_number = e2.block_number →
      e1.block_timestamp = e2.block_timestamp →
      e1.status = e2.status →
      (mkPaymentEvent e1).get_event_id = (mkPaymentEvent e2).get_event_id ∧
      (mkPaymentEvent e1).dedupKey = (mkPaymentEvent e2).dedupKey) := by
  constructor
  · intro e
    exact ⟨rfl, rfl, rfl, rfl⟩
  · intro e1 e2 htx hmid _hcust hpid _ _ _ _ _
    have hid : (mkPaymentEvent e1).get_event_id = (mkPaymentEvent e2).get_event_id := by
      simp [mkPaymentEvent, PaymentEvent.get_event_id, caseEq_pyLower htx, hpid]
    have hm : (mkPaymentEvent e1).merchant_id = (mkPaymentEvent e2).merchant_id := by
      simp [mkPaymentEvent, caseEq_pyLower hmid]
    exact ⟨hid, by simp [PaymentEvent.dedupKey, hid, hm]⟩

/-- C10 witness: the concrete mixed-case and lower-case events agree up
to letter case and get the same event id and dedup key. -/
theorem event_id_case_insensitive_witness :
    caseEq eventUpperCase.transaction_hash eventLowerCase.transaction_hash = true ∧
    (mkPaymentEvent eventUpperCase).get_event_id = (mkPaymentEvent eventLowerCase).get_event_id ∧
    (mkPaymentEvent eventUpperCase).dedupKey = (mkPaymentEvent eventLowerCase).dedupKey :=
  ⟨by decide,
   event_id_case_insensitive.2 eventUpperCase eventLowerCase
     (by decide) (by decide) (by decide) rfl rfl rfl rfl rfl rfl⟩

/-- C8 counterexample: after `sampleEvent` was delivered successfully
and its merchant was deactivated in the directory, routing the same
event finds the merchant present and inactive, yet returns
delivered = true with no error (the dedup check precedes the
active-merchant check), not the "Merchant is inactive" failure the claim
requires. -/
theorem inactive_replay_counterexample :
    get_merchant [deactivatedMerchant] sampleEvent.merchant_id = some deactivatedMerchant ∧
    deactivatedMerchant.is_active = false ∧
    replayRoute.delivered = true ∧
    replayRoute.error = none ∧
    replayRoute.ledger = deliveredLedger := by
  decide

/-- C8 (amended): provided the ledger holds no success record for the
(event id, merchant id) pair, routing an event whose merchant is missing
from the directory fails with the not-registered error, and routing an
event whose merchant is present but inactive fails with the inactive
error; in both cases no ledger record is written and no transport call
is performed. -/
theorem route_failfast_no_write (dir : List Merchant) (delays : List Nat)
    (eth : String) (led : Ledger) (st : RouterStats) (ev : PaymentEvent)
    (et : String) (now : Nat) (ts : String) (hO : HttpOutcome) (tO : TgResult)
    (hproc : check_event_processed led ev.get_event_id ev.merchant_id = false) :
    (get_merchant dir ev.merchant_id = none →
      (route_notification dir delays eth led st ev et now ts hO tO).delivered = false ∧
      (route_notification dir delays eth led st ev et now ts hO tO).error =
        some ("Merchant " ++ ev.merchant_id ++ " not registered") ∧
      (route_notification dir delays eth led st ev et now ts hO tO).ledger = led ∧
      (route_notification dir delays eth led st ev et now ts hO tO).transportCalls = 0) ∧
    (∀ m : Merchant, get_merchant dir ev.merchant_id = some m → m.is_active = false →
      (route_notification dir delays eth led st ev et now ts hO tO).delivered = false ∧
      (route_notification dir delays eth led st ev et now ts hO tO).error =
        some "Merchant is inactive" ∧
      (route_notification dir delays eth led st ev et now ts hO tO).ledger = led ∧
      (route_notification dir delays eth led st ev et now ts hO tO).transportCalls = 0) := by
  constructor
  · intro hdir
    simp [route_notification, hproc, hdir]
  · intro m hdir hact
    simp [route_notification, hproc, hdir, hact]

/-- C8 witness: the amended fail-fast claim instantiated on a fresh
ledger, once with an empty directory (merchant missing) and once with a
directory holding only the deactivated merchant (present but
inactive). -/
theorem route_failfast_no_write_witness :
    ((route_notification [] sampleDelays "https://e" [] {} sampleEvent
        "payment.completed" 0 "ts" httpFail tgFail).delivered = false ∧
      (route_notification [] sampleDelays "https://e" [] {} sampleEvent
        "payment.completed" 0 "ts" httpFail tgFail).error =
        some ("Merchant " ++ sampleEvent.merchant_id ++ " not registered") ∧
      (route_notification [] sampleDelays "https://e" [] {} sampleEvent
        "payment.completed" 0 "ts" httpFail tgFail).ledger = [] ∧
      (route_notification [] sampleDelays "https://e" [] {} sampleEvent
        "payment.completed" 0 "ts" httpFail tgFail).transportCalls = 0) ∧
    ((route_notification [deactivatedMerchant] sampleDelays "https://e" [] {}
        sampleEvent "payment.completed" 0 "ts" httpFail tgFail).delivered = false ∧
      (route_notification [deactivatedMerchant] sampleDelays "https://e" [] {}
        sampleEvent "payment.completed" 0 "ts" httpFail tgFail).error =
        some "Merchant is inactive" ∧
      (route_notification [deactivatedMerchant] sampleDelays "https://e" [] {}
        sampleEvent "payment.completed" 0 "ts" httpFail tgFail).ledger = [] ∧
      (route_notification [deactivatedMerchant] sampleDelays "https://e" [] {}
        sampleEvent "payment.completed" 0 "ts" httpFail tgFail).transportCalls = 0) :=
  ⟨(route_failfast_no_write [] sampleDelays "https://e" [] {} sampleEvent
      "payment.completed" 0 "ts" httpFail tgFail (by decide)).1 (by decide),
   (route_failfast_no_write [deactivatedMerchant] sampleDelays "https://e" [] {}
      sampleEvent "payment.completed" 0 "ts" httpFail tgFail (by decide)).2
      deactivatedMerchant (by decide) (by decide)⟩

/-- C1: if no success record exists for the (event id, merchant id) pair
and routing delivers, then exactly one transport call was made and a
success record now exists; routing the same event again is a no-op
success — it returns delivered = true with no error, performs no
transport call and leaves the ledger unchanged, so exactly one transport
call is performed across both routings. -/
theorem idempotent_replay (dir : List Merchant) (delays : List Nat)
    (eth : String) (led0 : Ledger) (st : RouterStats) (ev : PaymentEvent)
    (et : String) (now : Nat) (ts : String) (hO : HttpOutcome) (tO : TgResult)
    (hproc : check_event_processed led0 ev.get_event_id ev.merchant_id = false)
    (hdel : (route_notification dir delays eth led0 st ev et now ts hO tO).delivered = true) :
    (route_notification dir delays eth led0 st ev et now ts hO tO).transportCalls = 1 ∧
    check_event_processed
      (route_notification dir delays eth led0 st ev et now ts hO tO).ledger
      ev.get_event_id ev.merchant_id = true ∧
    (∀ (st2 : RouterStats) (now2 : Nat) (ts2 : String) (hO2 : HttpOutcome) (tO2 : TgResult),
      (route_notification dir delays eth
        (route_notification dir delays eth led0 st ev et now ts hO tO).ledger
        st2 ev et now2 ts2 hO2 tO2).delivered = true ∧
      (route_notification dir delays eth
        (route_notification dir delays eth led0 st ev et now ts hO tO).ledger
        st2 ev et now2 ts2 hO2 tO2).error = none ∧
      (route_notification dir delays eth
        (route_notification dir delays eth led0 st ev et now ts hO tO).ledger
        st2 ev et now2 ts2 hO2 tO2).ledger =
        (route_notification dir delays eth led0 st ev et now ts hO tO).ledger ∧
      (route_notification dir delays eth
        (route_notification dir delays eth led0 st ev et now ts hO tO).ledger
        st2 ev et now2 ts2 hO2 tO2).transportCalls = 0) := by
  have main :
      (route_notification dir delays eth led0 st ev et now ts hO tO).transportCalls = 1 ∧
      check_event_processed
        (route_notification dir delays eth led0 st ev et now ts hO tO).ledger
        ev.get_event_id ev.merchant_id = true := by
    unfold route_notification at hdel ⊢
    simp only [hproc, Bool.false_eq_true, if_false] at hdel ⊢
    cases hdir : get_merchant dir ev.merchant_id with
    | none =>
      rw [hdir] at hdel
      simp at hdel
    | some m =>
      rw [hdir] at hdel
      dsimp only at hdel ⊢
      have hmid : m.id = ev.merchant_id := get_merchant_id hdir
      cases hact : m.is_active with
      | false =>
        rw [hact] at hdel
        simp at hdel
      | true =>
        rw [hact] at hdel
        simp only [Bool.not_true] at hdel ⊢
        simp only [if_neg (show ¬(false = true) by simp)] at hdel ⊢
        cases hnt : m.notification_type with
        | webhook =>
          rw [hnt] at hdel
          dsimp only at hdel ⊢
          have := webhookSend_success_spec delays m ev et now ts hO led0 hdel
          rw [hmid] at this
          exact ⟨this.1, this.2⟩
        | telegram =>
          rw [hnt] at hdel
          dsimp only at hdel ⊢
          have := telegramSend_success_spec eth m ev et now tO led0 hdel
          rw [hmid] at this
          exact ⟨this.1, this.2⟩

  refine ⟨main.1, main.2, ?_⟩
  intro st2 now2 ts2 hO2 tO2
  exact route_processed dir delays eth _ st2 ev et now2 ts2 hO2 tO2 main.2

theorem hashNat_lt (H : Hash8) : hashNat H < mask32 ^ 8 := by
  have hm : 0 < mask32 := by decide
  have step : ∀ x M w : Nat, x < M → w < mask32 → x * mask32 + w < M * mask32 := by
    intro x M w hx hw
    calc x * mask32 + w < x * mask32 + mask32 := by omega
    _ = (x + 1) * mask32 := by ring
    _ ≤ M * mask32 := Nat.mul_le_mul_right _ (by omega)
  have l1 : H.h0 % mask32 < mask32 ^ 1 := by simpa using Nat.mod_lt _ hm
  have l2 := step _ _ _ l1 (Nat.mod_lt H.h1 hm)
  rw [← pow_succ] at l2
  have l3 := step _ _ _ l2 (Nat.mod_lt H.h2 hm)
  rw [← pow_succ] at l3
  have l4 := step _ _ _ l3 (Nat.mod_lt H.h3 hm)
  rw [← pow_succ] at l4
  have l5 := step _ _ _ l4 (Nat.mod_lt H.h4 hm)
  rw [← pow_succ] at l5
  have l6 := step _ _ _ l5 (Nat.mod_lt H.h5 hm)
  rw [← pow_succ] at l6
  have l7 := step _ _ _ l6 (Nat.mod_lt H.h6 hm)
  rw [← pow_succ] at l7
  have l8 := step _ _ _ l7 (Nat.mod_lt H.h7 hm)
  rw [← pow_succ] at l8
  exact l8

/-- C5 counterexample: it is not true that verifying with a different
secret always fails.  The HMAC hex digest takes fewer than `2 ^ 256`
values while there are infinitely many secrets, so two distinct secrets
collide on the canonical serialization of `samplePayload`, and
verification of that payload signed with one succeeds under the other. -/
theorem different_secret_collision_counterexample :
    ¬ (∀ (p : WebhookPayload) (secret secret' : String), secret' ≠ secret →
        WebhookPayload.verify_signature p.canonicalJson (p.sign secret) secret' =
          false) := by
  intro hclaim
  have hfin : ∀ s : String, hmacNat s samplePayload.canonicalJson < mask32 ^ 8 :=
    fun _ => hashNat_lt _
  obtain ⟨s1, s2, hne, heq⟩ :=
    Finite.exists_ne_map_eq_of_infinite
      (fun s : String => (⟨hmacNat s samplePayload.canonicalJson, hfin s⟩ : Fin (mask32 ^ 8)))
  have hnat : hmacNat s1 samplePayload.canonicalJson =
      hmacNat s2 samplePayload.canonicalJson := congrArg Fin.val heq
  have hhex : hmacSha256Hex s1 samplePayload.canonicalJson =
      hmacSha256Hex s2 samplePayload.canonicalJson := by
    unfold hmacSha256Hex
    rw [hnat]
  have hfalse := hclaim samplePayload s1 s2 (Ne.symm hne)
  unfold WebhookPayload.verify_signature WebhookPayload.sign at hfalse
  rw [hhex] at hfalse
  simp at hfalse

/-- C5 (amended): for every payload and secret, verifying the canonical
serialization of the payload against the signature produced by `sign`
with that secret returns true; and verification of any payload string
with any candidate signature and secret succeeds exactly when the
recomputed HMAC-SHA256 hex digest equals the candidate — so a byte
change or a different secret makes verification fail precisely when it
changes the digest. -/
theorem signature_roundtrip :
    (∀ (p : WebhookPayload) (secret : String),
      WebhookPayload.verify_signature p.canonicalJson (p.sign secret) secret = true) ∧
    (∀ (payload_json signature secret : String),
      WebhookPayload.verify_signature payload_json signature secret = true ↔
        hmacSha256Hex secret payload_json = signature) := by
  constructor
  · intro p secret
    unfold WebhookPayload.verify_signature WebhookPayload.sign
    exact beq_self_eq_true _
  · intro payload_json signature secret
    unfold WebhookPayload.verify_signature
    exact beq_iff_eq

/-- C3 counterexample: with schedule `[1, 5, 15, 60]`, the first delivery
failure does schedule the retry at now + 1 minute, but after four total
failures (the initial failure at minute 0 plus failing retry sweeps at
minutes 100, 200 and 300) the record is **not** Exhausted: a retry at
now + 60 minutes is still scheduled, contradicting the claim that four
total failures exhaust the record. -/
theorem webhook_four_failures_counterexample :
    recSummary wLed1 = [(0, some 1, false)] ∧
    recSummary wLed2 = [(1, some 105, false)] ∧
    recSummary wLed3 = [(2, some 215, false)] ∧
    recSummary wLed4 = [(3, some 360, false)] ∧
    recSummary wLed4 ≠ [(3, none, false)] := by
  have h := webhook_trace_summary
  refine ⟨h.1, h.2.1, h.2.2.1, h.2.2.2.1, ?_⟩
  rw [h.2.2.2.1]
  decide

/-- C3 (amended): with schedule `[1, 5, 15, 60]` minutes, any first
webhook delivery failure schedules the retry at now + 1 minute; in the
concrete scenario the record becomes Exhausted (next-retry absent,
`success` still false) after the **fifth** total failure — the initial
failure plus four failing retries — while after four total failures a
retry at +60 minutes is still scheduled. -/
theorem webhook_retry_progression :
    (∀ (m : Merchant) (ev : PaymentEvent) (et : String) (now : Nat)
       (ts : String) (o : HttpOutcome) (u s : String),
      m.notification_type = .webhook → m.webhook_url = some u →
      m.webhook_secret = some s → (deliver true o).1 = false →
      ∃ rec : DeliveryRecord,
        (webhookSend [1, 5, 15, 60] m ev et now ts o []).2.1 = [rec] ∧
        rec.retry_count = 0 ∧ rec.success = false ∧
        rec.next_retry_at = some (now + 1)) ∧
    recSummary wLed4 = [(3, some 360, false)] ∧
    recSummary wLed5 = [(4, none, false)] := by
  refine ⟨?_, webhook_trace_summary.2.2.2.1, webhook_trace_summary.2.2.2.2⟩
  intro m ev et now ts o u s hnt hu hs hf
  unfold webhookSend
  have hw : m.is_webhook = true := by simp [Merchant.is_webhook, hnt]
  rw [hw]
  simp only [Bool.not_true]
  simp only [if_neg (show ¬(false = true) by simp)]
  rw [hu, hs]
  dsimp only
  refine ⟨_, rfl, rfl, hf, ?_⟩
  rw [hf]
  rfl

/-- C3 witness: the amended first-failure schedule instantiated at the
concrete webhook merchant and a failing 500 response at minute 0. -/
theorem webhook_retry_progression_witness :
    (deliver true httpFail).1 = false ∧
    ∃ rec : DeliveryRecord,
      (webhookSend [1, 5, 15, 60] webhookMerchant sampleEvent
        "payment.completed" 0 "ts" httpFail []).2.1 = [rec] ∧
      rec.retry_count = 0 ∧ rec.success = false ∧
      rec.next_retry_at = some (0 + 1) :=
  ⟨by decide,
   webhook_retry_progression.1 webhookMerchant sampleEvent "payment.completed"
     0 "ts" httpFail "https://merchant.example/hook" "s3cr3t" rfl rfl rfl
     (by decide)⟩

/-- C4 counterexample: the first Telegram delivery failure schedules the
retry at now + 1 minute, not at now + 5 × (retry count + 1) = now + 5
minutes as the claim asserts for every failure. -/
theorem telegram_initial_retry_counterexample :
    recSummary tLed1 = [(0, some 1, false)] ∧
    recSummary tLed1 ≠ [(0, some (0 + 5 * (0 + 1)), false)] := by
  refine ⟨by decide, by decide⟩

/-- C4 (amended): the initial Telegram delivery failure schedules the
retry at now + 1 minute; every failing scheduler retry schedules the
next retry at now + 5 × (current retry count + 1) minutes with a cap of
3 retry attempts; concretely, after the initial failure the three
failing sweeps produce next-retry times +5 m and +10 m and then
Exhausted, and a fourth sweep performs no attempt and changes nothing. -/
theorem telegram_retry_policy :
    (∀ (eth : String) (m : Merchant) (ev : PaymentEvent) (et : String)
       (now : Nat) (o : TgResult) (c : String),
      m.notification_type = .telegram → m.telegram_chat_id = some c →
      o.ok = false →
      ∃ rec : DeliveryRecord,
        (telegramSend eth m ev et now o []).2.1 = [rec] ∧
        rec.retry_count = 0 ∧ rec.success = false ∧
        rec.next_retry_at = some (now + 1)) ∧
    (∀ (dir : List Merchant) (now : Nat) (oracle : String × String → TgResult)
       (r : DeliveryRecord) (m : Merchant) (c : String),
      isPendingRetry now r = true → r.delivery_method = "telegram" →
      get_merchant dir r.merchant_id = some m → m.telegram_chat_id = some c →
      (r.payload == "") = false → (oracle (r.event_id, r.merchant_id)).ok = false →
      (telegramRetryStep dir now oracle r).1.retry_count = r.retry_count + 1 ∧
      (telegramRetryStep dir now oracle r).1.next_retry_at =
        (if r.retry_count + 1 < 3 then some (now + 5 * (r.retry_count + 1))
         else none) ∧
      (telegramRetryStep dir now oracle r).1.success = false) ∧
    recSummary tLed1 = [(0, some 1, false)] ∧
    recSummary tLed2 = [(1, some 105, false)] ∧
    recSummary tLed3 = [(2, some 210, false)] ∧
    recSummary tLed4 = [(3, none, false)] ∧
    tTick4.1 = tLed4 ∧ tTick4.2 = 0 := by
  refine ⟨?_, ?_, by decide, by decide, by decide, by decide, by decide, by decide⟩
  · intro eth m ev et now o c hnt hc hf
    unfold telegramSend
    have ht : m.is_telegram = true := by simp [Merchant.is_telegram, hnt]
    rw [ht]
    simp only [Bool.not_true]
    simp only [if_neg (show ¬(false = true) by simp)]
    rw [hc]
    dsimp only
    refine ⟨_, rfl, rfl, hf, ?_⟩
    rw [hf]
    rfl
  · intro dir now oracle r m c hpend hmeth hdir hc hpl hf
    have hstep := telegramRetryStep_fail dir now oracle r m c hpend hmeth hdir hc hpl hf
    have hsucc : r.success = false := by
      unfold isPendingRetry at hpend
      rw [Bool.and_eq_true] at hpend
      have := hpend.1
      rwa [Bool.not_eq_true'] at this
    refine ⟨?_, ?_, ?_⟩
    · rw [hstep]
    · rw [hstep]
    · rw [hstep]; exact hsucc

/-- C4 witness: the amended Telegram retry policy instantiated at the
concrete Telegram merchant (initial failure at minute 0) and at a
concrete pending row retried at minute 50 with a failing bot response. -/
theorem telegram_retry_policy_witness :
    (tgFail.ok = false ∧
      ∃ rec : DeliveryRecord,
        (telegramSend "https://sepolia.etherscan.io" telegramMerchant
          sampleEvent "payment.completed" 0 tgFail []).2.1 = [rec] ∧
        rec.retry_count = 0 ∧ rec.success = false ∧
        rec.next_retry_at = some (0 + 1)) ∧
    (isPendingRetry 50 pendingTelegramRecord = true ∧
      (telegramRetryStep [telegramMerchant] 50 failingTg
        pendingTelegramRecord).1.retry_count = pendingTelegramRecord.retry_count + 1 ∧
      (telegramRetryStep [telegramMerchant] 50 failingTg
        pendingTelegramRecord).1.next_retry_at =
        (if pendingTelegramRecord.retry_count + 1 < 3 then
          some (50 + 5 * (pendingTelegramRecord.retry_count + 1))
        else none) ∧
      (telegramRetryStep [telegramMerchant] 50 failingTg
        pendingTelegramRecord).1.success = false) := by
  have h2 := telegram_retry_policy.2.1 [telegramMerchant] 50 failingTg
    pendingTelegramRecord telegramMerchant "42" (by decide) (by decide) (by decide)
    (by decide) (by decide) (by decide)
  exact ⟨⟨by decide,
    telegram_retry_policy.1 "https://sepolia.etherscan.io" telegramMerchant
      sampleEvent "payment.completed" 0 tgFail "42" rfl rfl (by decide)⟩,
    ⟨by decide, h2.1, h2.2.1, h2.2.2⟩⟩

/-- C2: once a ledger row has `success = true` it is terminal — a later
live routing of any event (in particular one with the same
(event id, merchant id) pair) and the webhook and Telegram retry sweeps
all leave that row exactly as it is; in particular no later failure
write overwrites it. -/
theorem success_record_terminal (led : Ledger) (eid mid : String)
    (r : DeliveryRecord) (hfound : ledgerLookup led eid mid = some r)
    (hsucc : r.success = true) :
    (∀ (dir : List Merchant) (delays : List Nat) (eth : String)
       (st : RouterStats) (ev : PaymentEvent) (et : String) (now : Nat)
       (ts : String) (hO : HttpOutcome) (tO : TgResult),
      ledgerLookup (route_notification dir delays eth led st ev et now ts hO tO).ledger
        eid mid = some r) ∧
    (∀ (delays : List Nat) (dir : List Merchant) (now : Nat)
       (oracle : String × String → HttpOutcome),
      ledgerLookup (webhookRetryTick delays dir now oracle led).1 eid mid = some r) ∧
    (∀ (dir : List Merchant) (now : Nat) (oracle : String × String → TgResult),
      ledgerLookup (telegramRetryTick dir now oracle led).1 eid mid = some r) := by
  refine ⟨?_, ?_, ?_⟩
  · intro dir delays eth st ev et now ts hO tO
    rcases route_ledger_cases dir delays eth led st ev et now ts hO tO with
      hled | ⟨hpr, rec, hre, hrm, hled⟩
    · rw [hled]; exact hfound
    · by_cases hk : rec.event_id = eid ∧ rec.merchant_id = mid
      · exfalso
        have h1 : ev.get_event_id = eid := by rw [← hre, hk.1]
        have h2 : ev.merchant_id = mid := by rw [← hrm, hk.2]
        rw [h1, h2] at hpr
        rw [check_of_lookup_success hfound hsucc] at hpr
        exact Bool.true_eq_false.mp hpr
      · rw [hled, log_delivery_lookup_ne led rec eid mid hk]
        exact hfound
  · intro delays dir now oracle
    apply find?_map_of_found _ _ _ ?_ r hfound
    · exact congrArg Prod.fst (webhookRetryStep_success_fix delays dir now oracle r hsucc)
    · intro o
      simp [(webhookRetryStep_ids delays dir now oracle o).1,
        (webhookRetryStep_ids delays dir now oracle o).2]
  · intro dir now oracle
    apply find?_map_of_found _ _ _ ?_ r hfound
    · exact congrArg Prod.fst (telegramRetryStep_success_fix dir now oracle r hsucc)
    · intro o
      simp [(telegramRetryStep_ids dir now oracle o).1,
        (telegramRetryStep_ids dir now oracle o).2]

/-- C2 witness: the terminal-success claim instantiated on a one-row
ledger holding a success record, against a live routing of the same
event, one webhook retry sweep and one Telegram retry sweep, each with
failing outcomes. -/
theorem success_record_terminal_witness :
    ledgerLookup [successRecord] "evt_0xh_pid" "0xm" = some successRecord ∧
    ledgerLookup (route_notification [telegramMerchant] sampleDelays
        "https://sepolia.etherscan.io" [successRecord] {} sampleEvent
        "payment.completed" 3 "ts" httpFail tgFail).ledger
      "evt_0xh_pid" "0xm" = some successRecord ∧
    ledgerLookup (webhookRetryTick sampleDelays [telegramMerchant] 50
        failingHttp [successRecord]).1 "evt_0xh_pid" "0xm" = some successRecord ∧
    ledgerLookup (telegramRetryTick [telegramMerchant] 50 failingTg
        [successRecord]).1 "evt_0xh_pid" "0xm" = some successRecord := by
  have h := success_record_terminal [successRecord] "evt_0xh_pid" "0xm"
    successRecord (by decide) (by decide)
  exact ⟨by decide,
    h.1 [telegramMerchant] sampleDelays "https://sepolia.etherscan.io" {}
      sampleEvent "payment.completed" 3 "ts" httpFail tgFail,
    h.2.1 sampleDelays [telegramMerchant] 50 failingHttp,
    h.2.2 [telegramMerchant] 50 failingTg⟩

/-- C1 witness: the idempotent-replay claim instantiated on a concrete
successful Telegram delivery followed by a replay of the same event. -/
theorem idempotent_replay_witness :
    check_event_processed ([] : Ledger) sampleEvent.get_event_id sampleEvent.merchant_id = false ∧
    firstRoute.delivered = true ∧
    firstRoute.transportCalls = 1 ∧
    check_event_processed firstRoute.ledger sampleEvent.get_event_id
      sampleEvent.merchant_id = true ∧
    secondRoute.delivered = true ∧ secondRoute.error = none ∧
    secondRoute.ledger = firstRoute.ledger ∧ secondRoute.transportCalls = 0 := by
  have h := idempotent_replay [telegramMerchant] sampleDelays "https://sepolia.etherscan.io"
    [] {} sampleEvent "payment.completed" 0 "ts" httpFail { ok := true }
    (by decide) (by decide)
  have h2 := h.2.2 {} 7 "ts2" httpFail { ok := true }
  exact ⟨by decide, by decide, h.1, h.2.1, h2.1, h2.2.1, h2.2.2.1, h2.2.2.2⟩

/-- C9 witness: the amended formatting claim instantiated at concrete
events — mainnet USDC with amount `100000000`, and mainnet DAI
(18 decimals). -/
theorem formatted_amount_shape_witness :
    (usdcEvent.get_token_symbol = "USDC" ∧ usdcEvent.get_formatted_amount = "100.00 USDC") ∧
    (daiEvent.get_token_decimals = 18 ∧
      ∃ intPart frac : String,
        daiEvent.get_formatted_amount = intPart ++ "." ++ frac ++ " " ++ daiEvent.get_token_symbol ∧
        frac.length = 4) :=
  ⟨⟨by decide, formatted_amount_shape.1 usdcEvent (by decide) (by decide) (by decide)⟩,
   ⟨by decide, formatted_amount_shape.2 daiEvent (by decide)⟩⟩

end Gateway
